import Mathlib

/-!
Verification of the fitbit-uploader repository.

The repository is Python; we give a shallow embedding of the parts of
`fitbit_client.py`, `sheets_writer.py`, `main.py` and `server.py` that the
claims concern.  JSON values are modelled by the inductive `JVal`; Python
dictionary access (`.get`), indexing, slicing, truthiness, `round`, division
and string formatting are modelled by explicit helper functions.  Code that
can raise a Python exception is modelled in the `Except String` monad (the
message text is irrelevant).  JSON numbers are modelled as rationals: the
claims under study do not depend on binary floating-point artefacts, and
`round` is modelled as exact rational rounding to the given number of decimal
digits (the half-to-even tie rule of Python floats is not exercised by any
claim).  I/O effects (HTTP requests, the spreadsheet API) are modelled by
passing the would-be responses / outcomes in as explicit arguments.
-/

/-- A JSON value, as produced by `response.json()` in Python. -/
inductive JVal : Type where
  | jnull : JVal
  | jbool : Bool → JVal
  | jnum : ℚ → JVal
  | jstr : String → JVal
  | jarr : List JVal → JVal
  | jobj : List (String × JVal) → JVal

open JVal

instance : Inhabited JVal := ⟨jnull⟩

mutual

/-- Structural equality of JSON values (Python `==` on parsed JSON). -/
def jvalBeq : JVal → JVal → Bool
  | jnull, jnull => true
  | jbool a, jbool b => a == b
  | jnum a, jnum b => a == b
  | jstr a, jstr b => a == b
  | jarr xs, jarr ys => jarrBeq xs ys
  | jobj xs, jobj ys => jobjBeq xs ys
  | _, _ => false

def jarrBeq : List JVal → List JVal → Bool
  | [], [] => true
  | x :: xs, y :: ys => jvalBeq x y && jarrBeq xs ys
  | _, _ => false

def jobjBeq : List (String × JVal) → List (String × JVal) → Bool
  | [], [] => true
  | (k, v) :: xs, (k', v') :: ys => k == k' && jvalBeq v v' && jobjBeq xs ys
  | _, _ => false

end

mutual

theorem jvalBeq_iff : ∀ a b : JVal, jvalBeq a b = true ↔ a = b
  | jnull, jnull => by simp [jvalBeq]
  | jnull, jbool _ => by simp [jvalBeq]
  | jnull, jnum _ => by simp [jvalBeq]
  | jnull, jstr _ => by simp [jvalBeq]
  | jnull, jarr _ => by simp [jvalBeq]
  | jnull, jobj _ => by simp [jvalBeq]
  | jbool _, jnull => by simp [jvalBeq]
  | jbool _, jbool _ => by simp [jvalBeq]
  | jbool _, jnum _ => by simp [jvalBeq]
  | jbool _, jstr _ => by simp [jvalBeq]
  | jbool _, jarr _ => by simp [jvalBeq]
  | jbool _, jobj _ => by simp [jvalBeq]
  | jnum _, jnull => by simp [jvalBeq]
  | jnum _, jbool _ => by simp [jvalBeq]
  | jnum _, jnum _ => by simp [jvalBeq]
  | jnum _, jstr _ => by simp [jvalBeq]
  | jnum _, jarr _ => by simp [jvalBeq]
  | jnum _, jobj _ => by simp [jvalBeq]
  | jstr _, jnull => by simp [jvalBeq]
  | jstr _, jbool _ => by simp [jvalBeq]
  | jstr _, jnum _ => by simp [jvalBeq]
  | jstr _, jstr _ => by simp [jvalBeq]
  | jstr _, jarr _ => by simp [jvalBeq]
  | jstr _, jobj _ => by simp [jvalBeq]
  | jarr _, jnull => by simp [jvalBeq]
  | jarr _, jbool _ => by simp [jvalBeq]
  | jarr _, jnum _ => by simp [jvalBeq]
  | jarr _, jstr _ => by simp [jvalBeq]
  | jarr xs, jarr ys => by simp [jvalBeq, jarrBeq_iff xs ys]
  | jarr _, jobj _ => by simp [jvalBeq]
  | jobj _, jnull => by simp [jvalBeq]
  | jobj _, jbool _ => by simp [jvalBeq]
  | jobj _, jnum _ => by simp [jvalBeq]
  | jobj _, jstr _ => by simp [jvalBeq]
  | jobj _, jarr _ => by simp [jvalBeq]
  | jobj xs, jobj ys => by simp [jvalBeq, jobjBeq_iff xs ys]

theorem jarrBeq_iff : ∀ xs ys : List JVal, jarrBeq xs ys = true ↔ xs = ys
  | [], [] => by simp [jarrBeq]
  | [], _ :: _ => by simp [jarrBeq]
  | _ :: _, [] => by simp [jarrBeq]
  | x :: xs, y :: ys => by
    simp [jarrBeq, jvalBeq_iff x y, jarrBeq_iff xs ys]

theorem jobjBeq_iff : ∀ xs ys : List (String × JVal), jobjBeq xs ys = true ↔ xs = ys
  | [], [] => by simp [jobjBeq]
  | [], _ :: _ => by simp [jobjBeq]
  | _ :: _, [] => by simp [jobjBeq]
  | (k, v) :: xs, (k', v') :: ys => by
    simp [jobjBeq, jvalBeq_iff v v', jobjBeq_iff xs ys, Prod.ext_iff, and_assoc]

end

instance : DecidableEq JVal := fun a b => decidable_of_iff _ (jvalBeq_iff a b)

/-- First-match association-list lookup (Python dict keys are unique, so
first-match agrees with dict lookup). -/
def jLookup : List (String × JVal) → String → Option JVal
  | [], _ => none
  | (k, v) :: rest, key => if k = key then some v else jLookup rest key

/-- Python truthiness (`bool(x)`) of a JSON value. -/
def jTruthy : JVal → Bool
  | jnull => false
  | jbool b => b
  | jnum q => q ≠ 0
  | jstr s => s ≠ ""
  | jarr l => !l.isEmpty
  | jobj f => !f.isEmpty

/-- Python `x.get(key, default)`.  Raises `AttributeError` when `x` is not a
dict. -/
def jGetD : JVal → String → JVal → Except String JVal
  | jobj fs, k, dflt => .ok ((jLookup fs k).getD dflt)
  | _, _, _ => .error "AttributeError: .get on non-dict"

/-- Python `x[0]`.  Works on lists and strings, raises otherwise (also on an
empty list/string). -/
def jIndex0 : JVal → Except String JVal
  | jarr (x :: _) => .ok x
  | jarr [] => .error "IndexError"
  | jstr s =>
    match s.data with
    | c :: _ => .ok (jstr (String.singleton c))
    | [] => .error "IndexError"
  | _ => .error "TypeError: not subscriptable"

/-- Python `x[:10]`.  Slicing is defined on strings and lists, raises
otherwise. -/
def jSlice10 : JVal → Except String JVal
  | jstr s => .ok (jstr (s.take 10))
  | jarr l => .ok (jarr (l.take 10))
  | _ => .error "TypeError: not subscriptable"

/-- Python `for x in v`: lists yield their elements, dicts their keys,
strings their characters; other values are not iterable. -/
def jElems : JVal → Except String (List JVal)
  | jarr l => .ok l
  | jobj fs => .ok (fs.map fun kv => jstr kv.1)
  | jstr s => .ok (s.data.map fun c => jstr (String.singleton c))
  | _ => .error "TypeError: not iterable"

instance {ε α : Type _} [DecidableEq ε] [DecidableEq α] : DecidableEq (Except ε α) := fun a b =>
  match a, b with
  | .error e, .error e' =>
    if h : e = e' then .isTrue (by rw [h])
    else .isFalse (fun hh => h (Except.error.inj hh))
  | .error _, .ok _ => .isFalse (fun hh => Except.noConfusion hh)
  | .ok _, .error _ => .isFalse (fun hh => Except.noConfusion hh)
  | .ok a, .ok b =>
    if h : a = b then .isTrue (by rw [h])
    else .isFalse (fun hh => h (Except.ok.inj hh))

/-- Exact division of rationals, written with `Rat.divInt` so that it
kernel-evaluates (`Rat.inv`, hence `/`, is irreducible); `ratDiv_eq` below
identifies it with field division. -/
def ratDiv (a b : ℚ) : ℚ := Rat.divInt (a.num * (b.den : ℤ)) ((a.den : ℤ) * b.num)

theorem ratDiv_eq (a b : ℚ) : ratDiv a b = a / b := by
  by_cases hb : b = 0
  · subst hb
    simp [ratDiv]
  · have hda : ((a.den : ℚ)) ≠ 0 := by
      exact_mod_cast a.den_nz
    have hdb : ((b.den : ℚ)) ≠ 0 := by
      exact_mod_cast b.den_nz
    have hnb : ((b.num : ℚ)) ≠ 0 := by
      exact_mod_cast Rat.num_ne_zero.2 hb
    have ha : ((a.num : ℚ)) = a * a.den := (div_eq_iff hda).1 (Rat.num_div_den a)
    have hbn : ((b.num : ℚ)) = b * b.den := (div_eq_iff hdb).1 (Rat.num_div_den b)
    rw [ratDiv, Rat.divInt_eq_div]
    push_cast
    rw [ha, hbn]
    rw [div_eq_div_iff (mul_ne_zero hda (mul_ne_zero hb hdb)) hb]
    ring

/-- Exact rounding of a rational to `n` decimal digits (models Python
`round(x, n)`; ties do not arise in any claim).  Written with integer
operations and `Rat.divInt` for kernel evaluation; `pyRound_eq` identifies
it with `round (q * 10 ^ n) / 10 ^ n`. -/
def pyRound (q : ℚ) (n : ℕ) : ℚ :=
  Rat.divInt ((2 * (q.num * 10 ^ n) + (q.den : ℤ)) / (2 * (q.den : ℤ))) (10 ^ n)

theorem pyRound_eq (q : ℚ) (n : ℕ) :
    pyRound q n = (round (q * 10 ^ n) : ℤ) / (10 ^ n : ℚ) := by
  have hden : ((q.den : ℚ)) ≠ 0 := by
    exact_mod_cast q.den_nz
  have hq : ((q.num : ℚ)) = q * q.den := (div_eq_iff hden).1 (Rat.num_div_den q)
  have h2 : q * 10 ^ n + 1 / 2
      = (((2 * (q.num * 10 ^ n) + (q.den : ℤ)) : ℤ) : ℚ) / (((2 * q.den : ℕ)) : ℚ) := by
    push_cast
    rw [hq]
    rw [eq_div_iff (mul_ne_zero two_ne_zero hden)]
    ring
  have h3 : round (q * 10 ^ n)
      = (2 * (q.num * 10 ^ n) + (q.den : ℤ)) / (((2 * q.den : ℕ) : ℤ)) := by
    rw [round_eq, h2, Rat.floor_intCast_div_natCast]
  rw [pyRound, Rat.divInt_eq_div, h3]
  push_cast
  ring_nf

/-- Python `round(x, n)` on a JSON value: numbers round, booleans coerce to
0/1, everything else raises `TypeError`. -/
def jRound : JVal → ℕ → Except String JVal
  | jnum q, n => .ok (jnum (pyRound q n))
  | jbool b, _ => .ok (jnum (if b then 1 else 0))
  | _, _ => .error "TypeError: round on non-number"

/-- Python `x / c` for a numeric constant `c`: numbers divide (exactly, in
ℚ), booleans coerce, everything else raises `TypeError`. -/
def jDiv : JVal → ℚ → Except String JVal
  | jnum q, c => .ok (jnum (ratDiv q c))
  | jbool b, c => .ok (jnum (ratDiv (if b then 1 else 0) c))
  | _, _ => .error "TypeError: unsupported operand"

/-- Decimal rendering of a rational: fractional digits by long division,
bounded fuel (all numbers reaching formatting in this development have
denominator dividing a power of ten). -/
def decFracDigits : ℕ → ℕ → ℕ → List Char
  | 0, _, _ => []
  | _, 0, _ => []
  | fuel + 1, r, d =>
    let r10 := r * 10
    (Char.ofNat (48 + r10 / d)) :: decFracDigits fuel (r10 % d) d

/-- Render a rational the way Python renders the corresponding number
(integers without a decimal point; the `.0` that Python appends to
integer-valued floats is not modelled — no claim depends on it). -/
def ratToStr (q : ℚ) : String :=
  let sign := if q < 0 then "-" else ""
  let n := q.num.natAbs
  let d := q.den
  let intPart := toString (n / d)
  let frac := decFracDigits 30 (n % d) d
  if frac.isEmpty then sign ++ intPart
  else sign ++ intPart ++ "." ++ String.mk frac

/-- Python `str(x)` / f-string interpolation of a JSON value (container
rendering is approximated; no claim formats a container). -/
def pyStr : JVal → String
  | jnull => "None"
  | jbool b => if b then "True" else "False"
  | jnum q => ratToStr q
  | jstr s => s
  | jarr _ => "[...]"
  | jobj _ => "{...}"

/-- A flat metrics row: what one fetcher returns, and what `fetch_all`
accumulates (a Python dict with string keys). -/
abbrev Row := List (String × JVal)

/-- Set one key in a row, replacing the first occurrence in place or
appending (Python dict assignment preserving insertion order). -/
def rowSet : Row → String → JVal → Row
  | [], k, v => [(k, v)]
  | (k', v') :: rest, k, v =>
    if k' = k then (k', v) :: rest else (k', v') :: rowSet rest k v

/-- Python `row.update(m)`. -/
def rowUpdate (r m : Row) : Row := m.foldl (fun acc kv => rowSet acc kv.1 kv.2) r

/-- Whether a row contains a key. -/
def hasKey (r : Row) (k : String) : Bool := (jLookup r k).isSome

/-! ## Metric fetchers (`src/fitbit_client.py`)

Each fetcher takes the parsed JSON body of its endpoint's response (the
result of `_get`) and reshapes it into a flat `Row`; any Python exception in
the reshaping becomes an `Except.error`.  The HTTP request itself is factored
out: `fetch_all` below receives each endpoint's outcome in a `Session`. -/

/-- The loop of `_total_distance`: first entry tagged `"activity": "total"`
wins. -/
def totalDistanceLoop : List JVal → Except String JVal
  | [] => .ok (jnum 0)
  | d :: rest => do
    let act ← jGetD d "activity" jnull
    if act = jstr "total" then
      let dist ← jGetD d "distance" (jnum 0)
      jRound dist 2
    else
      totalDistanceLoop rest

/-- `_total_distance(summary)` — returns the `"total"` entry's distance
rounded to 2 decimals, else 0. -/
def total_distance (summary : JVal) : Except String JVal := do
  let distances ← jGetD summary "distances" (jarr [])
  let l ← jElems distances
  totalDistanceLoop l

/-- `get_activity_summary` (body already fetched). -/
def get_activity_summary (data : JVal) : Except String Row := do
  let s ← jGetD data "summary" (jobj [])
  let steps ← jGetD s "steps" (jnum 0)
  let dist ← total_distance s
  let floors ← jGetD s "floors" (jnum 0)
  let calTotal ← jGetD s "caloriesOut" (jnum 0)
  let calAct ← jGetD s "activityCalories" (jnum 0)
  return [("steps", steps), ("distance_km", dist), ("floors", floors),
          ("calories_total", calTotal), ("calories_activity", calAct)]

/-- `get_azm` (body already fetched). -/
def get_azm (data : JVal) : Except String Row := do
  let minutes ← jGetD data "activities-active-zone-minutes" (jarr [])
  if !jTruthy minutes then
    return [("azm_fat_burn", jnum 0), ("azm_cardio", jnum 0),
            ("azm_peak", jnum 0), ("azm_total", jnum 0)]
  else
  let m0 ← jIndex0 minutes
  let val ← jGetD m0 "value" (jobj [])
  let fatBurn ← jGetD val "fatBurnActiveZoneMinutes" (jnum 0)
  let cardio ← jGetD val "cardioActiveZoneMinutes" (jnum 0)
  let peak ← jGetD val "peakActiveZoneMinutes" (jnum 0)
  let total ← jGetD val "activeZoneMinutes" (jnum 0)
  return [("azm_fat_burn", fatBurn), ("azm_cardio", cardio),
          ("azm_peak", peak), ("azm_total", total)]

/-- The defaults returned by `get_sleep` when no (truthy) main entry is
found. -/
def sleepDefaults : Row :=
  [("sleep_start", jstr ""), ("sleep_end", jstr ""),
   ("sleep_duration_hrs", jnum 0), ("sleep_efficiency", jnum 0),
   ("sleep_deep_min", jnum 0), ("sleep_light_min", jnum 0),
   ("sleep_rem_min", jnum 0), ("sleep_wake_min", jnum 0)]

/-- The `for s in sleeps` search for the first entry with truthy
`isMainSleep`. -/
def findMainSleep : List JVal → Except String (Option JVal)
  | [] => .ok none
  | s :: rest => do
    let flag ← jGetD s "isMainSleep" jnull
    if jTruthy flag then return (some s) else findMainSleep rest

/-- The row built by `get_sleep` from the selected main entry. -/
def sleepRowOf (m : JVal) : Except String Row := do
  let levels ← jGetD m "levels" (jobj [])
  let summary ← jGetD levels "summary" (jobj [])
  let duration ← jGetD m "duration" (jnum 0)
  let start ← jGetD m "startTime" (jstr "")
  let stop ← jGetD m "endTime" (jstr "")
  let hrs ← jRound (← jDiv duration 3600000) 2
  let efficiency ← jGetD m "efficiency" (jnum 0)
  let deepObj ← jGetD summary "deep" (jobj [])
  let deep ← jGetD deepObj "minutes" (jnum 0)
  let lightObj ← jGetD summary "light" (jobj [])
  let light ← jGetD lightObj "minutes" (jnum 0)
  let remObj ← jGetD summary "rem" (jobj [])
  let rem ← jGetD remObj "minutes" (jnum 0)
  let wakeObj ← jGetD summary "wake" (jobj [])
  let wake ← jGetD wakeObj "minutes" (jnum 0)
  return [("sleep_start", start), ("sleep_end", stop),
          ("sleep_duration_hrs", hrs), ("sleep_efficiency", efficiency),
          ("sleep_deep_min", deep), ("sleep_light_min", light),
          ("sleep_rem_min", rem), ("sleep_wake_min", wake)]

/-- The `if not main and sleeps: main = sleeps[0]` fallback of `get_sleep`:
keep the flagged entry, else index the truthy `sleeps` value. -/
def selectSleepEntry (sleepsV : JVal) (mainA : Option JVal) : Except String (Option JVal) :=
  match mainA with
  | some m => pure (some m)
  | none =>
    if jTruthy sleepsV then do
      let s0 ← jIndex0 sleepsV
      pure (some s0)
    else
      pure none

/-- `get_sleep` (body already fetched).  `main` is the first truthy
`isMainSleep` entry, else `sleeps[0]` when `sleeps` is truthy; a falsy
`main` (None, or e.g. an empty first dict) yields the defaults. -/
def get_sleep (data : JVal) : Except String Row := do
  let sleepsV ← jGetD data "sleep" (jarr [])
  let elems ← jElems sleepsV
  let mainA ← findMainSleep elems
  let mainB ← selectSleepEntry sleepsV mainA
  match mainB with
  | some m => if jTruthy m then sleepRowOf m else return sleepDefaults
  | none => return sleepDefaults

/-- `get_heart_rate` (body already fetched). -/
def get_heart_rate (data : JVal) : Except String Row := do
  let entries ← jGetD data "activities-heart" (jarr [])
  if !jTruthy entries then
    return [("rhr", jstr "")]
  else
  let e0 ← jIndex0 entries
  let val ← jGetD e0 "value" (jobj [])
  let rhr ← jGetD val "restingHeartRate" (jstr "")
  return [("rhr", rhr)]

/-- `get_hrv` (body already fetched). -/
def get_hrv (data : JVal) : Except String Row := do
  let entries ← jGetD data "hrv" (jarr [])
  if !jTruthy entries then
    return [("hrv_rmssd", jstr "")]
  else
  let e0 ← jIndex0 entries
  let val ← jGetD e0 "value" (jobj [])
  let probe ← jGetD val "dailyRmssd" jnull
  if jTruthy probe then
    let raw ← jGetD val "dailyRmssd" (jnum 0)
    let r ← jRound raw 2
    return [("hrv_rmssd", r)]
  else
    return [("hrv_rmssd", jstr "")]

/-- `get_spo2` (body already fetched).  `val = data.get("value", data)`;
a list collapses to its head (or `{}` when empty). -/
def get_spo2 (data : JVal) : Except String Row := do
  let val0 ← jGetD data "value" data
  let val :=
    match val0 with
    | jarr (x :: _) => x
    | jarr [] => jobj []
    | v => v
  let avg ← jGetD val "avg" (jstr "")
  let mn ← jGetD val "min" (jstr "")
  let mx ← jGetD val "max" (jstr "")
  return [("spo2_avg", avg), ("spo2_min", mn), ("spo2_max", mx)]

/-- `get_breathing_rate` (body already fetched). -/
def get_breathing_rate (data : JVal) : Except String Row := do
  let entries ← jGetD data "br" (jarr [])
  if !jTruthy entries then
    return [("breathing_rate", jstr "")]
  else
  let e0 ← jIndex0 entries
  let val ← jGetD e0 "value" (jobj [])
  let probe ← jGetD val "breathingRate" jnull
  if jTruthy probe then
    let raw ← jGetD val "breathingRate" (jnum 0)
    let r ← jRound raw 1
    return [("breathing_rate", r)]
  else
    return [("breathing_rate", jstr "")]

/-- `get_skin_temp` (body already fetched). -/
def get_skin_temp (data : JVal) : Except String Row := do
  let entries ← jGetD data "tempSkin" (jarr [])
  if !jTruthy entries then
    return [("skin_temp_variation", jstr "")]
  else
  let e0 ← jIndex0 entries
  let val ← jGetD e0 "value" (jobj [])
  let v ← jGetD val "nightlyRelative" (jstr "")
  return [("skin_temp_variation", v)]

/-- `get_vo2_max` (body already fetched). -/
def get_vo2_max (data : JVal) : Except String Row := do
  let entries ← jGetD data "cardioScore" (jarr [])
  if !jTruthy entries then
    return [("vo2_max", jstr "")]
  else
  let e0 ← jIndex0 entries
  let val ← jGetD e0 "value" (jobj [])
  let vo2 ← jGetD val "vo2Max" jnull
  match vo2 with
  | jobj fs => do
    let low := (jLookup fs "low").getD (jstr "")
    let high := (jLookup fs "high").getD (jstr "")
    return [("vo2_max", jstr (pyStr low ++ "-" ++ pyStr high))]
  | v => return [("vo2_max", if jTruthy v then v else jstr "")]

/-- The filter-and-format loop of `get_exercises`: keeps activities whose
`startDate` (else `originalStartTime`), truncated to 10 characters, equals
`str(d)`, and formats each kept one. -/
def exercisesLoop (d : String) : List JVal → Except String (List String)
  | [] => .ok []
  | a :: rest => do
    let inner ← jGetD a "originalStartTime" (jstr "")
    let sdv ← jGetD a "startDate" inner
    let logDate ← jSlice10 sdv
    if logDate ≠ jstr d then
      exercisesLoop d rest
    else
      let name ← jGetD a "activityName" (jstr "Unknown")
      let dur ← jGetD a "activeDuration" (jnum 0)
      let durationMin ← jRound (← jDiv dur 60000) 1
      let cals ← jGetD a "calories" (jnum 0)
      let part := pyStr name ++ " (" ++ pyStr durationMin ++ "min, " ++ pyStr cals ++ "cal)"
      let rest' ← exercisesLoop d rest
      return (part :: rest')

/-- `get_exercises` (body already fetched; `d` is `str(d)`). -/
def get_exercises (d : String) (data : JVal) : Except String Row := do
  let activities ← jGetD data "activities" (jarr [])
  if !jTruthy activities then
    return [("exercises", jstr "None")]
  else
  let l ← jElems activities
  let parts ← exercisesLoop d l
  return [("exercises", jstr (if !parts.isEmpty then String.intercalate "; " parts else "None"))]

/-! ## Aggregate fetcher (`fetch_all`)

The session is modelled by the outcome of `_get` on each of the ten
endpoints: `.error` stands for a raised exception (network error, HTTP error
status from `raise_for_status`, or a JSON-decoding failure), `.ok body` for a
parsed JSON body. -/

structure Session where
  activityBody : Except String JVal
  azmBody : Except String JVal
  sleepBody : Except String JVal
  heartBody : Except String JVal
  hrvBody : Except String JVal
  spo2Body : Except String JVal
  brBody : Except String JVal
  tempSkinBody : Except String JVal
  cardioBody : Except String JVal
  activityListBody : Except String JVal

/-- One fetcher applied to a session and a date string: fetch the body (an
exception propagates), then reshape. -/
def runActivitySummary (s : Session) (_d : String) : Except String Row := do
  get_activity_summary (← s.activityBody)

def runAzm (s : Session) (_d : String) : Except String Row := do
  get_azm (← s.azmBody)

def runSleep (s : Session) (_d : String) : Except String Row := do
  get_sleep (← s.sleepBody)

def runHeartRate (s : Session) (_d : String) : Except String Row := do
  get_heart_rate (← s.heartBody)

def runHrv (s : Session) (_d : String) : Except String Row := do
  get_hrv (← s.hrvBody)

def runSpo2 (s : Session) (_d : String) : Except String Row := do
  get_spo2 (← s.spo2Body)

def runBreathingRate (s : Session) (_d : String) : Except String Row := do
  get_breathing_rate (← s.brBody)

def runSkinTemp (s : Session) (_d : String) : Except String Row := do
  get_skin_temp (← s.tempSkinBody)

def runVo2Max (s : Session) (_d : String) : Except String Row := do
  get_vo2_max (← s.cardioBody)

def runExercises (s : Session) (d : String) : Except String Row := do
  get_exercises d (← s.activityListBody)

/-- The `fetchers` list of `fetch_all`, in source order. -/
def fetchers : List (Session → String → Except String Row) :=
  [runActivitySummary, runAzm, runSleep, runHeartRate, runHrv,
   runSpo2, runBreathingRate, runSkinTemp, runVo2Max, runExercises]

/-- `fetch_all(d)`: run every fetcher, `row.update` each success, log-and-skip
each failure. -/
def fetch_all (d : String) (s : Session) : Row :=
  fetchers.foldl
    (fun row fn =>
      match fn s d with
      | .ok m => rowUpdate row m
      | .error _ => row)
    []

/-- The fixed key set each fetcher's row carries (every return site of each
fetcher in the source is a dict literal with these keys). -/
def fetcherKeys : Fin 10 → List String
  | 0 => ["steps", "distance_km", "floors", "calories_total", "calories_activity"]
  | 1 => ["azm_fat_burn", "azm_cardio", "azm_peak", "azm_total"]
  | 2 => ["sleep_start", "sleep_end", "sleep_duration_hrs", "sleep_efficiency",
          "sleep_deep_min", "sleep_light_min", "sleep_rem_min", "sleep_wake_min"]
  | 3 => ["rhr"]
  | 4 => ["hrv_rmssd"]
  | 5 => ["spo2_avg", "spo2_min", "spo2_max"]
  | 6 => ["breathing_rate"]
  | 7 => ["skin_temp_variation"]
  | 8 => ["vo2_max"]
  | 9 => ["exercises"]

/-- The fetcher at position `i` of the `fetchers` list. -/
def runFetcher (i : Fin 10) : Session → String → Except String Row :=
  fetchers.get ⟨i.val, by cases i with | mk v h => simpa [fetchers] using h⟩

/-! ## Sheet writer (`src/sheets_writer.py`)

`ws.append_row` is an external API call; its outcome is modelled by an
oracle `appendOk : ℕ → Bool` telling whether the k-th `append_row` call of
the current writer invocation succeeds.  A writer invocation returns the
list of rows actually committed to the sheet, the number of `append_row`
calls attempted, and whether an exception propagated. -/

structure WriteResult where
  committed : List (List JVal)
  attempts : ℕ
  outcome : Except String Unit
  deriving DecidableEq

/-- The `for row in rows: ws.append_row(row)` loop: a failing append raises,
committing nothing further and attempting nothing further. -/
def appendLoop (appendOk : ℕ → Bool) : ℕ → List (List JVal) → WriteResult
  | _, [] => ⟨[], 0, .ok ()⟩
  | k, row :: rest =>
    if appendOk k then
      let r := appendLoop appendOk (k + 1) rest
      ⟨row :: r.committed, r.attempts + 1, r.outcome⟩
    else
      ⟨[], 1, .error "APIError"⟩

/-- The row built for the i-th (1-based) blood-pressure reading. -/
def bpRow (ts : String) (i : ℕ) (r : Row) : List JVal :=
  [jstr ts, jnum i,
   (jLookup r "systolic").getD (jstr ""),
   (jLookup r "diastolic").getD (jstr ""),
   (jLookup r "pulse").getD (jstr ""),
   (jLookup r "notes").getD (jstr "")]

/-- `append_bp(readings)`: one timestamp `ts` computed before the loop, one
row per reading with its 1-based index, then one `append_row` per row. -/
def append_bp (ts : String) (readings : List Row) (appendOk : ℕ → Bool) : WriteResult :=
  let rows := (readings.enum).map fun p => bpRow ts (p.1 + 1) p.2
  appendLoop appendOk 0 rows

/-- Python `str.capitalize()`: first character upper-cased, the rest
lower-cased. -/
def pyCapitalize (s : String) : String :=
  match s.data with
  | [] => ""
  | c :: rest => String.mk (c.toUpper :: rest.map Char.toLower)

/-- The row built for one diet item. -/
def dietRow (ts meal : String) (item : Row) : List JVal :=
  [jstr ts, jstr (pyCapitalize meal),
   (jLookup item "food_item").getD (jstr ""),
   (jLookup item "weight_grams").getD (jstr ""),
   (jLookup item "notes").getD (jstr "")]

/-- `append_diet(meal, items)`. -/
def append_diet (ts meal : String) (items : List Row) (appendOk : ℕ → Bool) : WriteResult :=
  let rows := items.map (dietRow ts meal)
  appendLoop appendOk 0 rows

/-! ## CLI blood-pressure command (`cmd_bp` in `src/main.py`)

`int(s)` parsing: optional surrounding whitespace, optional sign, then at
least one digit (digit-group underscores are not modelled; no claim uses
them).  A parse failure is an uncaught `ValueError`, which terminates the
process with exit code 1 — the same exit code as the explicit
`sys.exit(1)` for a reading with no slash.  `cmd_bp` therefore returns
either `.error code` with `code ≠ 0` (process exited, no sheet write
attempted) or `.ok readings` (the list handed to `append_bp`). -/

def digitsVal (l : List Char) : ℤ :=
  l.foldl (fun acc c => acc * 10 + (c.toNat - 48)) 0

/-- Python `s.split(sep)` for a one-character separator (chosen over
`String.splitOn`, which does not kernel-evaluate). -/
def splitOnCharAux (c : Char) : List Char → List Char → List String
  | [], cur => [String.mk cur.reverse]
  | x :: rest, cur =>
    if x = c then String.mk cur.reverse :: splitOnCharAux c rest []
    else splitOnCharAux c rest (x :: cur)

/-- Python `raw.split("/")`. -/
def pySplitSlash (s : String) : List String := splitOnCharAux '/' s.data []

/-- Python `s.strip()` as applied by `int()` (chosen over `String.trim`,
which does not kernel-evaluate). -/
def pyStrip (s : String) : String :=
  String.mk (((s.data.dropWhile Char.isWhitespace).reverse.dropWhile Char.isWhitespace).reverse)

def pyInt? (s : String) : Option ℤ :=
  let t := pyStrip s
  match t.data with
  | '-' :: rest => if rest ≠ [] ∧ rest.all Char.isDigit then some (-(digitsVal rest)) else none
  | '+' :: rest => if rest ≠ [] ∧ rest.all Char.isDigit then some (digitsVal rest) else none
  | rest => if rest ≠ [] ∧ rest.all Char.isDigit then some (digitsVal rest) else none

/-- Parse one reading argument `"systolic/diastolic[/pulse]"` into the dict
`cmd_bp` builds, or the exit code the process dies with. -/
def parseReading (raw : String) : Except ℕ Row :=
  let parts := pySplitSlash raw
  if parts.length < 2 then
    .error 1
  else
    match parts with
    | p0 :: p1 :: rest =>
      match pyInt? p0, pyInt? p1 with
      | some sys, some dia =>
        match rest with
        | [] => .ok [("systolic", jnum sys), ("diastolic", jnum dia),
                     ("pulse", jstr ""), ("notes", jstr "")]
        | p2 :: _ =>
          match pyInt? p2 with
          | some pul => .ok [("systolic", jnum sys), ("diastolic", jnum dia),
                             ("pulse", jnum pul), ("notes", jstr "")]
          | none => .error 1
      | _, _ => .error 1
    | _ => .error 1

/-- The argument loop of `cmd_bp`: the first bad argument terminates the
process before `append_bp` is ever reached. -/
def parseReadings : List String → Except ℕ (List Row)
  | [] => .ok []
  | raw :: rest => do
    let r ← parseReading raw
    let rs ← parseReadings rest
    return (r :: rs)

/-- `cmd_bp(args)`: `.ok readings` means the readings list was handed to
`append_bp`; `.error code` means the process exited with `code` and no sheet
write was attempted. -/
def cmd_bp (args : List String) : Except ℕ (List Row) :=
  parseReadings args

/-! ## HTTP endpoint (`FetchHandler.do_GET` in `src/server.py`)

The request is modelled after `urlparse`/`parse_qs`: a path and a query
multi-map.  `parse_qs` never produces an empty value list, so
`params.get("key", [None])[0]` is modelled as the head of the stored list
(or `none` when the parameter is absent).  `hmac.compare_digest` on two
all-ASCII strings is equality (its constant-time execution is a timing
property, not a functional one); when either `str` argument contains a
non-ASCII character it raises `TypeError`, which nothing in the handler
catches, so no response is written at all.  The handler's observable
behaviour is therefore a `GetResult`: either a written response or an
uncaught exception, plus whether the fetch / write collaborators were ever
invoked.  The fetch-and-write pipeline performs I/O, so its two
steps are oracles: `fetchOutcome` is what `fetch_all` returns or raises
(session acquisition can raise too), `writeOutcome` what `append_fitbit`
does with the returned metrics. -/

/-- `params.get(name, [None])[0]`. -/
def getParam (query : List (String × List String)) (name : String) : Option String :=
  match query.find? (fun p => p.1 = name) with
  | some p => p.2.head?
  | none => none

def isLeapYear (y : ℕ) : Bool := y % 4 = 0 && (y % 100 ≠ 0 || y % 400 = 0)

def daysInMonth (y m : ℕ) : ℕ :=
  if m = 2 then (if isLeapYear y then 29 else 28)
  else if m = 4 ∨ m = 6 ∨ m = 9 ∨ m = 11 then 30
  else 31

/-- `date.fromisoformat` on the strict `YYYY-MM-DD` form: `some s` means the
string parsed (and `str()` of the parsed date is `s` itself), `none` a
`ValueError`. -/
def dateFromIso (s : String) : Option String :=
  match s.data with
  | [y1, y2, y3, y4, h1, m1, m2, h2, d1, d2] =>
    if [y1, y2, y3, y4, m1, m2, d1, d2].all Char.isDigit ∧ h1 = '-' ∧ h2 = '-' then
      let y := (y1.toNat - 48) * 1000 + (y2.toNat - 48) * 100 + (y3.toNat - 48) * 10 + (y4.toNat - 48)
      let m := (m1.toNat - 48) * 10 + (m2.toNat - 48)
      let d := (d1.toNat - 48) * 10 + (d2.toNat - 48)
      if 1 ≤ m ∧ m ≤ 12 ∧ 1 ≤ d ∧ d ≤ daysInMonth y m ∧ 1 ≤ y then some s else none
    else none
  | _ => none

/-- One response written back by `self._respond`: status and body. -/
structure HResponse where
  status : ℕ
  body : String
  deriving DecidableEq

/-- The observable outcome of one `do_GET`: the written response, or
`.error` for an exception the handler does not catch (no response is
written then); plus whether the fetch / write collaborators were invoked. -/
structure GetResult where
  sent : Except String HResponse
  fetchCalled : Bool
  writeCalled : Bool
  deriving DecidableEq

/-- Whether every character of a string is ASCII (`str.isascii`). -/
def isAsciiStr (s : String) : Bool := s.data.all fun c => c.toNat < 128

/-- `hmac.compare_digest` on two `str` arguments: equality when both are
all-ASCII, `TypeError` otherwise (CPython rejects non-ASCII `str`
arguments). -/
def compareDigest (a b : String) : Except String Bool :=
  if isAsciiStr a && isAsciiStr b then .ok (a = b)
  else .error "TypeError: comparing strings with non-ASCII characters is not supported"

/-- The 200-body summary: `"  k: v"` per metric, newline-joined. -/
def metricsSummary (metrics : Row) : String :=
  String.intercalate "\n" (metrics.map fun kv => "  " ++ kv.1 ++ ": " ++ pyStr kv.2)

/-- `FetchHandler.do_GET`.  `if not key or not hmac.compare_digest(key,
API_KEY)` short-circuits: `compare_digest` only runs for a truthy key, and
its `TypeError` on non-ASCII input propagates out of the handler
uncaught. -/
def do_GET (apiKey todayStr path : String) (query : List (String × List String))
    (fetchOutcome : Except String Row) (writeOutcome : Row → Except String Unit) :
    GetResult :=
  if path ≠ "/fetch" then
    ⟨.ok ⟨404, "Not found. Use /fetch?key=YOUR_API_KEY"⟩, false, false⟩
  else
    match getParam query "key" with
    | none => ⟨.ok ⟨403, "Forbidden: invalid or missing API key."⟩, false, false⟩
    | some key =>
      if key = "" then
        ⟨.ok ⟨403, "Forbidden: invalid or missing API key."⟩, false, false⟩
      else
        match compareDigest key apiKey with
        | .error e => ⟨.error e, false, false⟩
        | .ok eq =>
          if !eq then
            ⟨.ok ⟨403, "Forbidden: invalid or missing API key."⟩, false, false⟩
          else
            let rawDate := getParam query "date"
            let target? :=
              match rawDate with
              | some r => if r ≠ "" then dateFromIso r else some todayStr
              | none => some todayStr
            match target? with
            | none =>
              ⟨.ok ⟨400, "Bad date format: " ++ rawDate.getD "" ++ ". Use YYYY-MM-DD."⟩,
               false, false⟩
            | some target =>
              match fetchOutcome with
              | .error e => ⟨.ok ⟨500, "Error:\n" ++ e⟩, true, false⟩
              | .ok metrics =>
                match writeOutcome metrics with
                | .error e => ⟨.ok ⟨500, "Error:\n" ++ e⟩, true, true⟩
                | .ok _ =>
                  ⟨.ok ⟨200, "OK — Fitbit data for " ++ target ++ " written to sheet.\n\n" ++
                    metricsSummary metrics⟩, true, true⟩

/-! ## Generic lemmas about the `Except` embedding -/

theorem ebind_ok {ε α β : Type _} (a : α) (f : α → Except ε β) :
    (Except.ok a >>= f) = f a := rfl

theorem ebind_error {ε α β : Type _} (e : ε) (f : α → Except ε β) :
    ((Except.error e : Except ε α) >>= f) = .error e := rfl

theorem exists_of_ebind_ok {ε α β : Type _} {x : Except ε α} {f : α → Except ε β} {r : β}
    (h : (x >>= f) = .ok r) : ∃ a, x = .ok a ∧ f a = .ok r := by
  cases x with
  | ok a => exact ⟨a, rfl, h⟩
  | error e => rw [ebind_error] at h; cases h

/-- Whether a JSON value is an object (a Python dict). -/
def isObj : JVal → Bool
  | jobj _ => true
  | _ => false

/-- The claim's selection predicate for C3: the entry's `"activity"` field
equals `"total"`. -/
def entryTagsTotal : JVal → Bool
  | jobj fs => ((jLookup fs "activity").getD jnull) = jstr "total"
  | _ => false

theorem totalDistanceLoop_none (l : List JVal) (hobj : ∀ e ∈ l, isObj e = true)
    (hfind : l.find? entryTagsTotal = none) : totalDistanceLoop l = .ok (jnum 0) := by
  induction l with
  | nil => rfl
  | cons e rest ih =>
    obtain ⟨gs, rfl⟩ : ∃ gs, e = jobj gs := by
      have he := hobj e (by simp)
      cases e <;> simp [isObj] at he ⊢
    by_cases hp : entryTagsTotal (jobj gs) = true
    · rw [List.find?_cons_of_pos _ hp] at hfind
      cases hfind
    · rw [List.find?_cons_of_neg _ hp] at hfind
      have hrec := ih (fun e he => hobj e (by simp [he])) hfind
      simp only [totalDistanceLoop, jGetD, ebind_ok]
      rw [if_neg (by simpa [entryTagsTotal] using hp)]
      exact hrec

theorem totalDistanceLoop_found (l : List JVal) (gs : List (String × JVal)) (q : ℚ)
    (hobj : ∀ e ∈ l, isObj e = true)
    (hfind : l.find? entryTagsTotal = some (jobj gs))
    (hdist : jLookup gs "distance" = some (jnum q)) :
    totalDistanceLoop l = .ok (jnum (pyRound q 2)) := by
  induction l with
  | nil => cases hfind
  | cons e rest ih =>
    obtain ⟨gs', rfl⟩ : ∃ gs', e = jobj gs' := by
      have he := hobj e (by simp)
      cases e <;> simp [isObj] at he ⊢
    by_cases hp : entryTagsTotal (jobj gs') = true
    · rw [List.find?_cons_of_pos _ hp] at hfind
      have hgs : gs' = gs := by
        cases hfind
        rfl
      subst hgs
      simp only [totalDistanceLoop, jGetD, ebind_ok]
      rw [if_pos (by simpa [entryTagsTotal] using hp)]
      simp [jGetD, hdist, ebind_ok, jRound]
    · rw [List.find?_cons_of_neg _ hp] at hfind
      have hrec := ih (fun e he => hobj e (by simp [he])) hfind
      simp only [totalDistanceLoop, jGetD, ebind_ok]
      rw [if_neg (by simpa [entryTagsTotal] using hp)]
      exact hrec

/-- C3: for every activity summary, `distance_km` equals the `"distance"`
value of the entry whose `"activity"` field equals `"total"` in the
summary's distances list, rounded to 2 decimal places; if no entry is
tagged `"total"` (including when the distances list is absent or empty),
`distance_km` equals 0. -/
theorem total_distance_claim :
    (∀ fs, jLookup fs "distances" = none →
      total_distance (jobj fs) = .ok (jnum 0)) ∧
    (∀ fs l, jLookup fs "distances" = some (jarr l) →
      (∀ e ∈ l, isObj e = true) →
      l.find? entryTagsTotal = none →
      total_distance (jobj fs) = .ok (jnum 0)) ∧
    (∀ fs l gs q, jLookup fs "distances" = some (jarr l) →
      (∀ e ∈ l, isObj e = true) →
      l.find? entryTagsTotal = some (jobj gs) →
      jLookup gs "distance" = some (jnum q) →
      total_distance (jobj fs) = .ok (jnum (pyRound q 2))) := by
  refine ⟨fun fs h => ?_, fun fs l h hobj hfind => ?_, fun fs l gs q h hobj hfind hdist => ?_⟩
  · simp only [total_distance, jGetD, h, Option.getD, ebind_ok, jElems]
    rfl
  · simp only [total_distance, jGetD, h, Option.getD, ebind_ok, jElems]
    exact totalDistanceLoop_none l hobj hfind
  · simp only [total_distance, jGetD, h, Option.getD, ebind_ok, jElems]
    exact totalDistanceLoop_found l gs q hobj hfind hdist

/-- Witness for C3 at a concrete summary: distances
`[{"activity": "run", "distance": 2}, {"activity": "total", "distance": 5.237}]`
give `distance_km = 5.24`. -/
theorem total_distance_claim_witness :
    total_distance (jobj [("distances", jarr
      [jobj [("activity", jstr "run"), ("distance", jnum 2)],
       jobj [("activity", jstr "total"), ("distance", jnum (Rat.divInt 5237 1000))]])])
      = .ok (jnum (pyRound (Rat.divInt 5237 1000) 2)) := by
  apply total_distance_claim.2.2
    [("distances", jarr
      [jobj [("activity", jstr "run"), ("distance", jnum 2)],
       jobj [("activity", jstr "total"), ("distance", jnum (Rat.divInt 5237 1000))]])]
    [jobj [("activity", jstr "run"), ("distance", jnum 2)],
     jobj [("activity", jstr "total"), ("distance", jnum (Rat.divInt 5237 1000))]]
    [("activity", jstr "total"), ("distance", jnum (Rat.divInt 5237 1000))]
    (Rat.divInt 5237 1000)
  · decide
  · decide
  · decide
  · decide

/-! ## C4: sleep selection and duration -/

/-- The claim's flag predicate: the entry's `isMainSleep` field is `true`. -/
def isFlaggedMain : JVal → Bool
  | jobj fs => jLookup fs "isMainSleep" = some (jbool true)
  | _ => false

/-- Well-formedness of a sleep entry for the flag search: an object whose
`isMainSleep` field, when present, is a boolean (so Python truthiness
coincides with being `true`). -/
def mainFlagWF : JVal → Bool
  | jobj fs =>
    match jLookup fs "isMainSleep" with
    | none => true
    | some (jbool _) => true
    | some _ => false
  | _ => false

/-- The claim's selection rule: the entry flagged as main sleep, else the
first entry. -/
def selectMainSleep (l : List JVal) : Option JVal :=
  match l.find? isFlaggedMain with
  | some e => some e
  | none => l.head?

/-- An optional field that is absent or an object. -/
def objOrAbsent : Option JVal → Bool
  | none => true
  | some (jobj _) => true
  | some _ => false

theorem getD_obj {o : Option JVal} (h : objOrAbsent o = true) :
    ∃ ms, o.getD (jobj []) = jobj ms := by
  match o with
  | none => exact ⟨[], rfl⟩
  | some (jobj ms) => exact ⟨ms, rfl⟩
  | some jnull | some (jbool _) | some (jnum _) | some (jstr _) | some (jarr _) =>
    simp [objOrAbsent] at h

/-- The stage summary's four entries are each absent or objects. -/
def stageWF (ss : List (String × JVal)) : Bool :=
  objOrAbsent (jLookup ss "deep") && objOrAbsent (jLookup ss "light") &&
  objOrAbsent (jLookup ss "rem") && objOrAbsent (jLookup ss "wake")

/-- Shape of a sleep entry under which `sleepRowOf` cannot raise: `levels`
and `levels.summary` are absent or objects, and so is each stage entry. -/
def sleepEntryWF (gs : List (String × JVal)) : Bool :=
  match jLookup gs "levels" with
  | none => true
  | some (jobj ls) =>
    (match jLookup ls "summary" with
     | none => true
     | some (jobj ss) => stageWF ss
     | some _ => false)
  | some _ => false

theorem findMainSleep_eq (l : List JVal) (h : ∀ x ∈ l, mainFlagWF x = true) :
    findMainSleep l = .ok (l.find? isFlaggedMain) := by
  induction l with
  | nil => rfl
  | cons e rest ih =>
    obtain ⟨fs, rfl⟩ : ∃ fs, e = jobj fs := by
      have he := h e (by simp)
      cases e <;> simp [mainFlagWF] at he ⊢
    have he := h (jobj fs) (by simp)
    simp only [findMainSleep, jGetD, ebind_ok]
    rcases hflag : jLookup fs "isMainSleep" with _ | v
    · rw [if_neg (by simp [hflag, jTruthy])]
      rw [List.find?_cons_of_neg _ (by simp [isFlaggedMain, hflag])]
      exact ih fun x hx => h x (by simp [hx])
    · cases v with
      | jbool b =>
        cases b with
        | true =>
          rw [if_pos (by simp [hflag, jTruthy])]
          rw [List.find?_cons_of_pos _ (by simp [isFlaggedMain, hflag])]
          rfl
        | false =>
          rw [if_neg (by simp [hflag, jTruthy])]
          rw [List.find?_cons_of_neg _ (by simp [isFlaggedMain, hflag])]
          exact ih fun x hx => h x (by simp [hx])
      | jnull | jnum _ | jstr _ | jarr _ | jobj _ => simp [mainFlagWF, hflag] at he

theorem sleepRowOf_duration (gs : List (String × JVal)) (q : ℚ)
    (hwf : sleepEntryWF gs = true) (hdur : jLookup gs "duration" = some (jnum q)) :
    ∃ row, sleepRowOf (jobj gs) = .ok row ∧
      jLookup row "sleep_duration_hrs" = some (jnum (pyRound (ratDiv q 3600000) 2)) := by
  unfold sleepEntryWF at hwf
  rcases hL : jLookup gs "levels" with _ | lv
  · have hrow : sleepRowOf (jobj gs) = .ok
        [("sleep_start", (jLookup gs "startTime").getD (jstr "")),
         ("sleep_end", (jLookup gs "endTime").getD (jstr "")),
         ("sleep_duration_hrs", jnum (pyRound (ratDiv q 3600000) 2)),
         ("sleep_efficiency", (jLookup gs "efficiency").getD (jnum 0)),
         ("sleep_deep_min", jnum 0), ("sleep_light_min", jnum 0),
         ("sleep_rem_min", jnum 0), ("sleep_wake_min", jnum 0)] := by
      simp only [sleepRowOf, jGetD, jLookup, ebind_ok, hL, hdur, Option.getD_some, Option.getD_none, jDiv, jRound]
      rfl
    exact ⟨_, hrow, by simp [jLookup]⟩
  · rw [hL] at hwf
    cases lv with
    | jobj ls =>
      have hwf2 : (match jLookup ls "summary" with
          | none => true
          | some (jobj ss) => stageWF ss
          | some _ => false) = true := hwf
      rcases hS : jLookup ls "summary" with _ | sv
      · have hrow : sleepRowOf (jobj gs) = .ok
            [("sleep_start", (jLookup gs "startTime").getD (jstr "")),
             ("sleep_end", (jLookup gs "endTime").getD (jstr "")),
             ("sleep_duration_hrs", jnum (pyRound (ratDiv q 3600000) 2)),
             ("sleep_efficiency", (jLookup gs "efficiency").getD (jnum 0)),
             ("sleep_deep_min", jnum 0), ("sleep_light_min", jnum 0),
             ("sleep_rem_min", jnum 0), ("sleep_wake_min", jnum 0)] := by
          simp only [sleepRowOf, jGetD, jLookup, ebind_ok, hL, hS, hdur, Option.getD_some, Option.getD_none, jDiv,
            jRound]
          rfl
        exact ⟨_, hrow, by simp [jLookup]⟩
      · rw [hS] at hwf2
        cases sv with
        | jobj ss =>
          have hst : stageWF ss = true := hwf2
          obtain ⟨⟨⟨h1, h2⟩, h3⟩, h4⟩ :
              ((objOrAbsent (jLookup ss "deep") = true ∧
                objOrAbsent (jLookup ss "light") = true) ∧
                objOrAbsent (jLookup ss "rem") = true) ∧
                objOrAbsent (jLookup ss "wake") = true := by
            simpa [stageWF, and_assoc] using hst
          obtain ⟨mdeep, hmdeep⟩ := getD_obj h1
          obtain ⟨mlight, hmlight⟩ := getD_obj h2
          obtain ⟨mrem, hmrem⟩ := getD_obj h3
          obtain ⟨mwake, hmwake⟩ := getD_obj h4
          have hrow : sleepRowOf (jobj gs) = .ok
              [("sleep_start", (jLookup gs "startTime").getD (jstr "")),
               ("sleep_end", (jLookup gs "endTime").getD (jstr "")),
               ("sleep_duration_hrs", jnum (pyRound (ratDiv q 3600000) 2)),
               ("sleep_efficiency", (jLookup gs "efficiency").getD (jnum 0)),
               ("sleep_deep_min", (jLookup mdeep "minutes").getD (jnum 0)),
               ("sleep_light_min", (jLookup mlight "minutes").getD (jnum 0)),
               ("sleep_rem_min", (jLookup mrem "minutes").getD (jnum 0)),
               ("sleep_wake_min", (jLookup mwake "minutes").getD (jnum 0))] := by
            simp only [sleepRowOf, jGetD, ebind_ok, hL, hS, hdur, Option.getD_some, Option.getD_none, hmdeep,
              hmlight, hmrem, hmwake, jDiv, jRound]
            rfl
          exact ⟨_, hrow, by simp [jLookup]⟩
        | jnull | jbool _ | jnum _ | jstr _ | jarr _ => cases hwf2
    | jnull | jbool _ | jnum _ | jstr _ | jarr _ => cases hwf

theorem epure_eq {α : Type _} (a : α) : (pure a : Except String α) = .ok a := rfl

/-- C4: for every sleep response with a non-empty sleep list, the entry with
`isMainSleep` true is selected, or the first entry if none is flagged, and
`sleep_duration_hrs` equals that entry's `duration` field in milliseconds
divided by 3,600,000, rounded to 2 decimal places; with an empty sleep list,
`sleep_duration_hrs` equals 0. -/
theorem get_sleep_duration_claim :
    (∀ fs, (jLookup fs "sleep" = none ∨ jLookup fs "sleep" = some (jarr [])) →
      ∃ row, get_sleep (jobj fs) = .ok row ∧
        jLookup row "sleep_duration_hrs" = some (jnum 0)) ∧
    (∀ fs l gs q, jLookup fs "sleep" = some (jarr l) →
      (∀ x ∈ l, mainFlagWF x = true) →
      selectMainSleep l = some (jobj gs) →
      sleepEntryWF gs = true →
      jLookup gs "duration" = some (jnum q) →
      ∃ row, get_sleep (jobj fs) = .ok row ∧
        jLookup row "sleep_duration_hrs" = some (jnum (pyRound (q / 3600000) 2))) := by
  constructor
  · intro fs h
    have hrow : get_sleep (jobj fs) = .ok sleepDefaults := by
      rcases h with h | h <;>
        · simp only [get_sleep, jGetD, h, Option.getD_none, Option.getD_some, ebind_ok,
            jElems, findMainSleep, epure_eq, jTruthy]
          rfl
    exact ⟨sleepDefaults, hrow, by simp [sleepDefaults, jLookup]⟩
  · intro fs l gs q hsleep hflag hsel hwf hdur
    have hne : gs ≠ [] := by
      intro h0
      subst h0
      simp [jLookup] at hdur
    obtain ⟨kv, gs', rfl⟩ : ∃ kv gs', gs = kv :: gs' := by
      cases gs with
      | nil => exact absurd rfl hne
      | cons a b => exact ⟨a, b, rfl⟩
    have htr : jTruthy (jobj (kv :: gs')) = true := rfl
    obtain ⟨row, hrow, hlook⟩ := sleepRowOf_duration (kv :: gs') q hwf hdur
    rw [ratDiv_eq] at hlook
    have hfm := findMainSleep_eq l hflag
    rcases hfind : l.find? isFlaggedMain with _ | e
    · have hhead : l.head? = some (jobj (kv :: gs')) := by
        unfold selectMainSleep at hsel
        rw [hfind] at hsel
        exact hsel
      obtain ⟨rest, rfl⟩ : ∃ rest, l = jobj (kv :: gs') :: rest := by
        cases l with
        | nil => cases hhead
        | cons a rest =>
          simp only [List.head?] at hhead
          injection hhead with hh
          subst hh
          exact ⟨rest, rfl⟩
      refine ⟨row, ?_, hlook⟩
      simp only [get_sleep, jGetD, hsleep, Option.getD_some, ebind_ok, jElems, hfm, hfind,
        epure_eq, jIndex0, jTruthy, List.isEmpty, Bool.not_false, htr, if_true]
      exact hrow
    · have he : e = jobj (kv :: gs') := by
        unfold selectMainSleep at hsel
        rw [hfind] at hsel
        injection hsel
      subst he
      refine ⟨row, ?_, hlook⟩
      simp only [get_sleep, jGetD, hsleep, Option.getD_some, ebind_ok, jElems, hfm, hfind,
        epure_eq, htr, if_true]
      exact hrow

/-- Witness for C4 at a concrete response: two entries, the second flagged
main with duration 27,000,000 ms, give `sleep_duration_hrs = 7.5`; and the
first conjunct at an empty sleep list gives 0. -/
theorem get_sleep_duration_claim_witness :
    (∃ row, get_sleep (jobj [("sleep", jarr [])]) = .ok row ∧
      jLookup row "sleep_duration_hrs" = some (jnum 0)) ∧
    (∃ row, get_sleep (jobj [("sleep", jarr
        [jobj [("isMainSleep", jbool false), ("duration", jnum 1000)],
         jobj [("isMainSleep", jbool true), ("duration", jnum 27000000)]])]) = .ok row ∧
      jLookup row "sleep_duration_hrs" = some (jnum (pyRound ((27000000 : ℚ) / 3600000) 2))) := by
  constructor
  · exact get_sleep_duration_claim.1 [("sleep", jarr [])] (Or.inr (by decide))
  · exact get_sleep_duration_claim.2 [("sleep", jarr
        [jobj [("isMainSleep", jbool false), ("duration", jnum 1000)],
         jobj [("isMainSleep", jbool true), ("duration", jnum 27000000)]])]
      [jobj [("isMainSleep", jbool false), ("duration", jnum 1000)],
       jobj [("isMainSleep", jbool true), ("duration", jnum 27000000)]]
      [("isMainSleep", jbool true), ("duration", jnum 27000000)]
      27000000 (by decide) (by decide) (by decide) (by decide) (by decide)

/-! ## C5: VO2 max rendering -/

/-- C5 counterexample: for the cardioScore response
`{"cardioScore": [{"value": {"vo2Max": 0}}]}` the scalar `vo2Max` value 0 is
falsy in Python, so the code renders `""` — not the scalar value itself
(unchanged) as the claim asserts for every scalar including 0. -/
theorem get_vo2_max_zero_scalar_counterexample :
    get_vo2_max (jobj [("cardioScore", jarr [jobj [("value", jobj [("vo2Max", jnum 0)])]])])
      = .ok [("vo2_max", jstr "")] ∧ jstr "" ≠ jnum 0 := by
  exact ⟨by decide, by decide⟩

/-- C5 (amended): a range object with `low` and `high` renders as
`"<low>-<high>"`; a truthy scalar renders as-is; an empty cardioScore list,
an absent `vo2Max`, or a falsy scalar (such as 0) renders as `""`. -/
theorem get_vo2_max_amended :
    (∀ fs, (jLookup fs "cardioScore" = none ∨ jLookup fs "cardioScore" = some (jarr [])) →
      get_vo2_max (jobj fs) = .ok [("vo2_max", jstr "")]) ∧
    (∀ fs es rest vs, jLookup fs "cardioScore" = some (jarr (jobj es :: rest)) →
      (jLookup es "value").getD (jobj []) = jobj vs →
      (jLookup vs "vo2Max" = none →
        get_vo2_max (jobj fs) = .ok [("vo2_max", jstr "")]) ∧
      (∀ hs lo hi, jLookup vs "vo2Max" = some (jobj hs) →
        jLookup hs "low" = some lo → jLookup hs "high" = some hi →
        get_vo2_max (jobj fs) = .ok [("vo2_max", jstr (pyStr lo ++ "-" ++ pyStr hi))]) ∧
      (∀ v, jLookup vs "vo2Max" = some v → isObj v = false → jTruthy v = true →
        get_vo2_max (jobj fs) = .ok [("vo2_max", v)]) ∧
      (∀ v, jLookup vs "vo2Max" = some v → isObj v = false → jTruthy v = false →
        get_vo2_max (jobj fs) = .ok [("vo2_max", jstr "")])) := by
  constructor
  · intro fs h
    rcases h with h | h <;>
      · simp only [get_vo2_max, jGetD, h, Option.getD_none, Option.getD_some, ebind_ok]
        rfl
  · intro fs es rest vs hcs hvs
    refine ⟨fun hvo2 => ?_, fun hs lo hi hvo2 hlo hhi => ?_, fun v hvo2 hobj htr => ?_,
      fun v hvo2 hobj htr => ?_⟩
    · simp only [get_vo2_max, jGetD, hcs, Option.getD_some, ebind_ok, jIndex0, hvs, hvo2,
        Option.getD_none, epure_eq]
      rfl
    · simp only [get_vo2_max, jGetD, hcs, Option.getD_some, ebind_ok, jIndex0, hvs, hvo2,
        hlo, hhi, epure_eq]
      rfl
    · cases v with
      | jobj _ => cases hobj
      | jnull => cases htr
      | jbool b =>
        simp only [get_vo2_max, jGetD, hcs, Option.getD_some, ebind_ok, jIndex0, hvs, hvo2,
          epure_eq]
        rw [htr]
        rfl
      | jnum q =>
        simp only [get_vo2_max, jGetD, hcs, Option.getD_some, ebind_ok, jIndex0, hvs, hvo2,
          epure_eq]
        rw [htr]
        rfl
      | jstr s =>
        simp only [get_vo2_max, jGetD, hcs, Option.getD_some, ebind_ok, jIndex0, hvs, hvo2,
          epure_eq]
        rw [htr]
        rfl
      | jarr l =>
        simp only [get_vo2_max, jGetD, hcs, Option.getD_some, ebind_ok, jIndex0, hvs, hvo2,
          epure_eq]
        rw [htr]
        rfl
    · cases v with
      | jobj _ => cases hobj
      | jnull =>
        simp only [get_vo2_max, jGetD, hcs, Option.getD_some, ebind_ok, jIndex0, hvs, hvo2,
          epure_eq]
        rfl
      | jbool b =>
        simp only [get_vo2_max, jGetD, hcs, Option.getD_some, ebind_ok, jIndex0, hvs, hvo2,
          epure_eq]
        rw [htr]
        rfl
      | jnum q =>
        simp only [get_vo2_max, jGetD, hcs, Option.getD_some, ebind_ok, jIndex0, hvs, hvo2,
          epure_eq]
        rw [htr]
        rfl
      | jstr s =>
        simp only [get_vo2_max, jGetD, hcs, Option.getD_some, ebind_ok, jIndex0, hvs, hvo2,
          epure_eq]
        rw [htr]
        rfl
      | jarr l =>
        simp only [get_vo2_max, jGetD, hcs, Option.getD_some, ebind_ok, jIndex0, hvs, hvo2,
          epure_eq]
        rw [htr]
        rfl

/-- Witness for C5 (amended) at concrete inputs: `{}` gives `""`, a range
`{"low": 42, "high": 47}` gives `"42-47"`, and a scalar 0 gives `""`. -/
theorem get_vo2_max_amended_witness :
    get_vo2_max (jobj []) = .ok [("vo2_max", jstr "")] ∧
    get_vo2_max (jobj [("cardioScore", jarr
        [jobj [("value", jobj [("vo2Max", jobj [("low", jnum 42), ("high", jnum 47)])])]])])
      = .ok [("vo2_max", jstr "42-47")] ∧
    get_vo2_max (jobj [("cardioScore", jarr [jobj [("value", jobj [("vo2Max", jnum 0)])]])])
      = .ok [("vo2_max", jstr "")] := by
  refine ⟨?_, ?_, ?_⟩
  · exact get_vo2_max_amended.1 [] (Or.inl rfl)
  · have h := (get_vo2_max_amended.2
      [("cardioScore", jarr
        [jobj [("value", jobj [("vo2Max", jobj [("low", jnum 42), ("high", jnum 47)])])]])]
      [("value", jobj [("vo2Max", jobj [("low", jnum 42), ("high", jnum 47)])])]
      [] [("vo2Max", jobj [("low", jnum 42), ("high", jnum 47)])]
      (by decide) (by decide)).2.1
      [("low", jnum 42), ("high", jnum 47)] (jnum 42) (jnum 47)
      (by decide) (by decide) (by decide)
    exact h.trans (by decide)
  · exact (get_vo2_max_amended.2
      [("cardioScore", jarr [jobj [("value", jobj [("vo2Max", jnum 0)])]])]
      [("value", jobj [("vo2Max", jnum 0)])]
      [] [("vo2Max", jnum 0)]
      (by decide) (by decide)).2.2.2 (jnum 0) (by decide) (by decide) (by decide)

/-! ## C10: exercise-list filtering by date -/

/-- The date field the code keys on: `startDate`, else `originalStartTime`,
else `""`. -/
def activityDateField : JVal → JVal
  | jobj fs => (jLookup fs "startDate").getD ((jLookup fs "originalStartTime").getD (jstr ""))
  | _ => jnull

/-- The amended inclusion rule: the first 10 characters of the date field
equal `str(d)`. -/
def includedOn (d : String) (a : JVal) : Bool :=
  match activityDateField a with
  | jstr s => s.take 10 = d
  | _ => false

def jnumVal : JVal → ℚ
  | jnum q => q
  | _ => 0

/-- The summary fragment built for one kept activity. -/
def formatActivity (a : JVal) : String :=
  match a with
  | jobj fs =>
    pyStr ((jLookup fs "activityName").getD (jstr "Unknown")) ++ " (" ++
    pyStr (jnum (pyRound (ratDiv (jnumVal ((jLookup fs "activeDuration").getD (jnum 0))) 60000) 1)) ++
    "min, " ++ pyStr ((jLookup fs "calories").getD (jnum 0)) ++ "cal)"
  | _ => ""

/-- Shape of an activity entry under which the loop cannot raise: an object
whose date field is a string and whose `activeDuration`, when present, is a
number. -/
def exEntryWF : JVal → Bool
  | jobj fs =>
    (match (jLookup fs "startDate").getD ((jLookup fs "originalStartTime").getD (jstr "")) with
     | jstr _ => true
     | _ => false) &&
    (match jLookup fs "activeDuration" with
     | none => true
     | some (jnum _) => true
     | some _ => false)
  | _ => false

theorem exercisesLoop_filter (d : String) (l : List JVal)
    (hwf : ∀ a ∈ l, exEntryWF a = true) :
    exercisesLoop d l = .ok ((l.filter (includedOn d)).map formatActivity) := by
  induction l with
  | nil => rfl
  | cons a rest ih =>
    obtain ⟨fs, rfl⟩ : ∃ fs, a = jobj fs := by
      have ha := hwf a (by simp)
      cases a <;> simp [exEntryWF] at ha ⊢
    have ha := hwf (jobj fs) (by simp)
    obtain ⟨hdate, hdur⟩ :
        (match (jLookup fs "startDate").getD ((jLookup fs "originalStartTime").getD (jstr "")) with
         | jstr _ => true
         | _ => false) = true ∧
        (match jLookup fs "activeDuration" with
         | none => true
         | some (jnum _) => true
         | some _ => false) = true := by
      simpa [exEntryWF] using ha
    obtain ⟨s, hs⟩ :
        ∃ s, (jLookup fs "startDate").getD ((jLookup fs "originalStartTime").getD (jstr ""))
          = jstr s := by
      rcases h : (jLookup fs "startDate").getD ((jLookup fs "originalStartTime").getD (jstr ""))
        with _ | _ | _ | s | _ | _ <;> rw [h] at hdate <;> first | exact ⟨s, rfl⟩ | cases hdate
    have hrec := ih fun x hx => hwf x (by simp [hx])
    by_cases hinc : includedOn d (jobj fs) = true
    · have htake : s.take 10 = d := by
        have h2 := hinc
        simp only [includedOn, activityDateField, hs] at h2
        simpa using h2
      obtain ⟨q, hq⟩ : ∃ q, (jLookup fs "activeDuration").getD (jnum 0) = jnum q := by
        rcases h : jLookup fs "activeDuration" with _ | v
        · exact ⟨0, rfl⟩
        · rw [h] at hdur
          cases v with
          | jnum q => exact ⟨q, rfl⟩
          | jnull | jbool _ | jstr _ | jarr _ | jobj _ => cases hdur
      rw [List.filter_cons_of_pos hinc]
      simp only [exercisesLoop, jGetD, ebind_ok, hs, jSlice10, hq, jDiv, jRound, epure_eq,
        hrec, List.map]
      rw [if_neg (by simp [htake])]
      simp only [formatActivity, hq, jnumVal, List.map_cons]
    · have htake : ¬ (s.take 10 = d) := by
        intro h0
        apply hinc
        simp only [includedOn, activityDateField, hs]
        simpa using h0
      rw [List.filter_cons_of_neg (by simpa using hinc)]
      simp only [exercisesLoop, jGetD, ebind_ok, hs, jSlice10, epure_eq]
      rw [if_pos (by simp [htake])]
      exact hrec

/-- C10 counterexample: for date `"2024-01-05"` and a response whose single
activity has `startDate = "2024-01-05T08:00:00"` — a value different from
the date string, so the claim as stated requires the activity to be excluded
and the field to be `"None"` — the code compares only the first 10
characters of `startDate` and includes the activity. -/
theorem get_exercises_truncation_counterexample :
    get_exercises "2024-01-05" (jobj [("activities", jarr [jobj
        [("startDate", jstr "2024-01-05T08:00:00"), ("activityName", jstr "Run"),
         ("activeDuration", jnum 1800000), ("calories", jnum 100)]])])
      = .ok [("exercises", jstr "Run (30min, 100cal)")] ∧
    jstr "2024-01-05T08:00:00" ≠ jstr "2024-01-05" ∧
    jstr "Run (30min, 100cal)" ≠ jstr "None" :=
  ⟨by decide, by decide, by decide⟩

/-- C10 (amended): the `exercises` field includes exactly those activities
whose `startDate` (or, when `startDate` is absent, `originalStartTime`),
truncated to its first 10 characters, equals `str(d)`; differently-dated
activities are silently excluded, and if the list is empty or every
activity is excluded the field equals the literal string `"None"`. -/
theorem get_exercises_amended :
    (∀ d fs, (jLookup fs "activities" = none ∨ jLookup fs "activities" = some (jarr [])) →
      get_exercises d (jobj fs) = .ok [("exercises", jstr "None")]) ∧
    (∀ d fs l, jLookup fs "activities" = some (jarr l) → l ≠ [] →
      (∀ a ∈ l, exEntryWF a = true) →
      get_exercises d (jobj fs) = .ok [("exercises", jstr
        (if (l.filter (includedOn d)).isEmpty then "None"
         else String.intercalate "; " ((l.filter (includedOn d)).map formatActivity)))]) := by
  constructor
  · intro d fs h
    rcases h with h | h <;>
      · simp only [get_exercises, jGetD, h, Option.getD_none, Option.getD_some, ebind_ok]
        rfl
  · intro d fs l hact hne hwf
    obtain ⟨a0, rest, rfl⟩ : ∃ a0 rest, l = a0 :: rest := by
      cases l with
      | nil => exact absurd rfl hne
      | cons x xs => exact ⟨x, xs, rfl⟩
    have hloop := exercisesLoop_filter d (a0 :: rest) hwf
    simp only [get_exercises, jGetD, hact, Option.getD_some, ebind_ok, jElems, hloop,
      epure_eq]
    rcases hX : List.filter (includedOn d) (a0 :: rest) with _ | ⟨b, bs⟩
    · simp [hX, jTruthy]
    · simp [hX, jTruthy]

/-- Witness for C10 (amended) at concrete inputs: an empty activities list
gives `"None"`, and a single activity dated `2024-01-04` fetched for date
`2024-01-05` is excluded, giving `"None"`. -/
theorem get_exercises_amended_witness :
    get_exercises "2024-01-05" (jobj [("activities", jarr [])])
      = .ok [("exercises", jstr "None")] ∧
    get_exercises "2024-01-05" (jobj [("activities", jarr [jobj
        [("startDate", jstr "2024-01-04"), ("activityName", jstr "Run"),
         ("activeDuration", jnum 1800000), ("calories", jnum 100)]])])
      = .ok [("exercises", jstr "None")] := by
  constructor
  · exact get_exercises_amended.1 "2024-01-05" [("activities", jarr [])] (Or.inr rfl)
  · have h := get_exercises_amended.2 "2024-01-05"
      [("activities", jarr [jobj
        [("startDate", jstr "2024-01-04"), ("activityName", jstr "Run"),
         ("activeDuration", jnum 1800000), ("calories", jnum 100)]])]
      [jobj [("startDate", jstr "2024-01-04"), ("activityName", jstr "Run"),
             ("activeDuration", jnum 1800000), ("calories", jnum 100)]]
      (by decide) (by decide) (by decide)
    exact h.trans (by decide)

/-! ## C1: empty-but-well-formed bodies give the documented defaults -/

/-- An empty-but-well-formed body for an endpoint whose payload lives in the
list-valued field `k`: either `{}` or `{k: []}`. -/
def emptyListBodyFor (k : String) (e : Except String JVal) : Prop :=
  e = .ok (jobj []) ∨ e = .ok (jobj [(k, jarr [])])

/-- An empty-but-well-formed activity-summary body: `{}` or a summary with
an empty distances list. -/
def emptyActivityBody (e : Except String JVal) : Prop :=
  e = .ok (jobj []) ∨ e = .ok (jobj [("summary", jobj [("distances", jarr [])])])

/-- An empty-but-well-formed SpO2 body: `{}` or `{"value": []}`. -/
def emptySpo2Body (e : Except String JVal) : Prop :=
  e = .ok (jobj []) ∨ e = .ok (jobj [("value", jarr [])])

/-- The column order of the `Fitbit` tab (`sheets_writer.FITBIT_COLUMNS`). -/
def FITBIT_COLUMNS : List String :=
  ["steps", "distance_km", "floors", "calories_total", "calories_activity",
   "azm_fat_burn", "azm_cardio", "azm_peak", "azm_total",
   "sleep_start", "sleep_end", "sleep_duration_hrs", "sleep_efficiency",
   "sleep_deep_min", "sleep_light_min", "sleep_rem_min", "sleep_wake_min",
   "rhr", "hrv_rmssd", "spo2_avg", "spo2_min", "spo2_max",
   "breathing_rate", "skin_temp_variation", "vo2_max", "exercises"]

/-- The documented defaults: 0 for the numeric activity/AZM/sleep fields,
`""` for `rhr`, `hrv_rmssd`, the SpO2 fields, `breathing_rate`,
`skin_temp_variation`, `vo2_max`, `sleep_start` and `sleep_end`, and the
literal string `"None"` for `exercises`. -/
def emptyFetchDefaults : Row :=
  [("steps", jnum 0), ("distance_km", jnum 0), ("floors", jnum 0),
   ("calories_total", jnum 0), ("calories_activity", jnum 0),
   ("azm_fat_burn", jnum 0), ("azm_cardio", jnum 0), ("azm_peak", jnum 0),
   ("azm_total", jnum 0),
   ("sleep_start", jstr ""), ("sleep_end", jstr ""),
   ("sleep_duration_hrs", jnum 0), ("sleep_efficiency", jnum 0),
   ("sleep_deep_min", jnum 0), ("sleep_light_min", jnum 0),
   ("sleep_rem_min", jnum 0), ("sleep_wake_min", jnum 0),
   ("rhr", jstr ""), ("hrv_rmssd", jstr ""),
   ("spo2_avg", jstr ""), ("spo2_min", jstr ""), ("spo2_max", jstr ""),
   ("breathing_rate", jstr ""), ("skin_temp_variation", jstr ""),
   ("vo2_max", jstr ""), ("exercises", jstr "None")]

theorem runActivitySummary_empty (s : Session) (d : String)
    (h : emptyActivityBody s.activityBody) :
    runActivitySummary s d = .ok [("steps", jnum 0), ("distance_km", jnum 0),
      ("floors", jnum 0), ("calories_total", jnum 0), ("calories_activity", jnum 0)] := by
  rcases h with h | h <;> (simp only [runActivitySummary, h, ebind_ok]; rfl)

theorem runAzm_empty (s : Session) (d : String)
    (h : emptyListBodyFor "activities-active-zone-minutes" s.azmBody) :
    runAzm s d = .ok [("azm_fat_burn", jnum 0), ("azm_cardio", jnum 0),
      ("azm_peak", jnum 0), ("azm_total", jnum 0)] := by
  rcases h with h | h <;> (simp only [runAzm, h, ebind_ok]; rfl)

theorem runSleep_empty (s : Session) (d : String)
    (h : emptyListBodyFor "sleep" s.sleepBody) :
    runSleep s d = .ok sleepDefaults := by
  rcases h with h | h <;> (simp only [runSleep, h, ebind_ok]; rfl)

theorem runHeartRate_empty (s : Session) (d : String)
    (h : emptyListBodyFor "activities-heart" s.heartBody) :
    runHeartRate s d = .ok [("rhr", jstr "")] := by
  rcases h with h | h <;> (simp only [runHeartRate, h, ebind_ok]; rfl)

theorem runHrv_empty (s : Session) (d : String)
    (h : emptyListBodyFor "hrv" s.hrvBody) :
    runHrv s d = .ok [("hrv_rmssd", jstr "")] := by
  rcases h with h | h <;> (simp only [runHrv, h, ebind_ok]; rfl)

theorem runSpo2_empty (s : Session) (d : String)
    (h : emptySpo2Body s.spo2Body) :
    runSpo2 s d = .ok [("spo2_avg", jstr ""), ("spo2_min", jstr ""),
      ("spo2_max", jstr "")] := by
  rcases h with h | h <;> (simp only [runSpo2, h, ebind_ok]; rfl)

theorem runBreathingRate_empty (s : Session) (d : String)
    (h : emptyListBodyFor "br" s.brBody) :
    runBreathingRate s d = .ok [("breathing_rate", jstr "")] := by
  rcases h with h | h <;> (simp only [runBreathingRate, h, ebind_ok]; rfl)

theorem runSkinTemp_empty (s : Session) (d : String)
    (h : emptyListBodyFor "tempSkin" s.tempSkinBody) :
    runSkinTemp s d = .ok [("skin_temp_variation", jstr "")] := by
  rcases h with h | h <;> (simp only [runSkinTemp, h, ebind_ok]; rfl)

theorem runVo2Max_empty (s : Session) (d : String)
    (h : emptyListBodyFor "cardioScore" s.cardioBody) :
    runVo2Max s d = .ok [("vo2_max", jstr "")] := by
  rcases h with h | h <;> (simp only [runVo2Max, h, ebind_ok]; rfl)

theorem runExercises_empty (s : Session) (d : String)
    (h : emptyListBodyFor "activities" s.activityListBody) :
    runExercises s d = .ok [("exercises", jstr "None")] := by
  rcases h with h | h <;> (simp only [runExercises, h, ebind_ok]; rfl)

/-- C1: for every date, running the aggregate fetch against a session whose
every endpoint returns an empty-but-well-formed JSON body (`{}` or empty
lists) yields a row in which every expected metric key is present and bound
to its documented default: 0 for the numeric activity/AZM/sleep fields,
`""` for `rhr`, `hrv_rmssd`, `spo2_avg`, `spo2_min`, `spo2_max`,
`breathing_rate`, `skin_temp_variation`, `vo2_max`, `sleep_start` and
`sleep_end`, and the literal string `"None"` for `exercises`. -/
theorem fetch_all_empty_bodies_defaults (d : String) (s : Session)
    (h1 : emptyActivityBody s.activityBody)
    (h2 : emptyListBodyFor "activities-active-zone-minutes" s.azmBody)
    (h3 : emptyListBodyFor "sleep" s.sleepBody)
    (h4 : emptyListBodyFor "activities-heart" s.heartBody)
    (h5 : emptyListBodyFor "hrv" s.hrvBody)
    (h6 : emptySpo2Body s.spo2Body)
    (h7 : emptyListBodyFor "br" s.brBody)
    (h8 : emptyListBodyFor "tempSkin" s.tempSkinBody)
    (h9 : emptyListBodyFor "cardioScore" s.cardioBody)
    (h10 : emptyListBodyFor "activities" s.activityListBody) :
    fetch_all d s = emptyFetchDefaults ∧
    ∀ k ∈ FITBIT_COLUMNS, (jLookup (fetch_all d s) k).isSome = true := by
  have hrow : fetch_all d s = emptyFetchDefaults := by
    simp only [fetch_all, fetchers, List.foldl,
      runActivitySummary_empty s d h1, runAzm_empty s d h2, runSleep_empty s d h3,
      runHeartRate_empty s d h4, runHrv_empty s d h5, runSpo2_empty s d h6,
      runBreathingRate_empty s d h7, runSkinTemp_empty s d h8,
      runVo2Max_empty s d h9, runExercises_empty s d h10]
    rfl
  refine ⟨hrow, ?_⟩
  rw [hrow]
  decide

/-- Witness for C1: the all-`{}` session at a concrete date. -/
theorem fetch_all_empty_bodies_defaults_witness :
    fetch_all "2024-01-01"
        ⟨.ok (jobj []), .ok (jobj []), .ok (jobj []), .ok (jobj []), .ok (jobj []),
         .ok (jobj []), .ok (jobj []), .ok (jobj []), .ok (jobj []), .ok (jobj [])⟩
      = emptyFetchDefaults ∧
    ∀ k ∈ FITBIT_COLUMNS,
      (jLookup (fetch_all "2024-01-01"
        ⟨.ok (jobj []), .ok (jobj []), .ok (jobj []), .ok (jobj []), .ok (jobj []),
         .ok (jobj []), .ok (jobj []), .ok (jobj []), .ok (jobj []), .ok (jobj [])⟩) k).isSome
        = true :=
  fetch_all_empty_bodies_defaults "2024-01-01" _
    (Or.inl rfl) (Or.inl rfl) (Or.inl rfl) (Or.inl rfl) (Or.inl rfl)
    (Or.inl rfl) (Or.inl rfl) (Or.inl rfl) (Or.inl rfl) (Or.inl rfl)

/-! ## C2: partial-failure isolation -/

theorem hasKey_rowSet (r : Row) (k' : String) (v : JVal) (k : String) :
    hasKey (rowSet r k' v) k = (hasKey r k || k' = k) := by
  induction r with
  | nil =>
    by_cases h : k' = k <;> simp [rowSet, hasKey, jLookup, h]
  | cons kv rest ih =>
    obtain ⟨k0, v0⟩ := kv
    by_cases h0 : k0 = k'
    · subst h0
      simp [rowSet, hasKey, jLookup]
      by_cases hk : k0 = k <;> simp [hk]
    · simp only [rowSet, if_neg h0, hasKey, jLookup]
      by_cases hk : k0 = k
      · simp [hk]
      · simpa [hk] using ih

theorem hasKey_rowUpdate (r m : Row) (k : String) :
    hasKey (rowUpdate r m) k = (hasKey r k || hasKey m k) := by
  induction m generalizing r with
  | nil => simp [rowUpdate, hasKey, jLookup]
  | cons kv rest ih =>
    obtain ⟨k0, v0⟩ := kv
    show hasKey (rowUpdate (rowSet r k0 v0) rest) k = _
    rw [ih, hasKey_rowSet]
    simp only [hasKey, jLookup]
    by_cases hk : k0 = k <;> simp [hk, Bool.or_assoc]

theorem hasKey_iff_mem_keys (r : Row) (k : String) :
    hasKey r k = true ↔ k ∈ r.map Prod.fst := by
  induction r with
  | nil => simp [hasKey, jLookup]
  | cons kv rest ih =>
    obtain ⟨k0, v0⟩ := kv
    by_cases hk : k0 = k
    · subst hk
      simp [hasKey, jLookup]
    · simpa [hasKey, jLookup, hk, Ne.symm hk] using ih

theorem sleepRowOf_keys {m : JVal} {r : Row} (h : sleepRowOf m = .ok r) :
    r.map Prod.fst = fetcherKeys 2 := by
  unfold sleepRowOf at h
  repeat obtain ⟨_, _, h⟩ := exists_of_ebind_ok h
  cases h
  rfl

theorem runActivitySummary_keys {s : Session} {d : String} {r : Row}
    (h : runActivitySummary s d = .ok r) : r.map Prod.fst = fetcherKeys 0 := by
  unfold runActivitySummary at h
  obtain ⟨data, hdata, h⟩ := exists_of_ebind_ok h
  unfold get_activity_summary at h
  repeat obtain ⟨_, _, h⟩ := exists_of_ebind_ok h
  cases h
  rfl

theorem runAzm_keys {s : Session} {d : String} {r : Row}
    (h : runAzm s d = .ok r) : r.map Prod.fst = fetcherKeys 1 := by
  unfold runAzm at h
  obtain ⟨data, hdata, h⟩ := exists_of_ebind_ok h
  unfold get_azm at h
  obtain ⟨v1, h1, h⟩ := exists_of_ebind_ok h
  split at h
  · cases h
    rfl
  · repeat obtain ⟨_, _, h⟩ := exists_of_ebind_ok h
    cases h
    rfl

theorem runSleep_keys {s : Session} {d : String} {r : Row}
    (h : runSleep s d = .ok r) : r.map Prod.fst = fetcherKeys 2 := by
  unfold runSleep at h
  obtain ⟨data, hdata, h⟩ := exists_of_ebind_ok h
  unfold get_sleep at h
  obtain ⟨v1, h1, h⟩ := exists_of_ebind_ok h
  obtain ⟨v2, h2, h⟩ := exists_of_ebind_ok h
  obtain ⟨v3, h3, h⟩ := exists_of_ebind_ok h
  obtain ⟨v4, h4, h⟩ := exists_of_ebind_ok h
  split at h
  · split at h
    · exact sleepRowOf_keys h
    · cases h
      rfl
  · cases h
    rfl

theorem runHeartRate_keys {s : Session} {d : String} {r : Row}
    (h : runHeartRate s d = .ok r) : r.map Prod.fst = fetcherKeys 3 := by
  unfold runHeartRate at h
  obtain ⟨data, hdata, h⟩ := exists_of_ebind_ok h
  unfold get_heart_rate at h
  obtain ⟨v1, h1, h⟩ := exists_of_ebind_ok h
  split at h
  · cases h
    rfl
  · repeat obtain ⟨_, _, h⟩ := exists_of_ebind_ok h
    cases h
    rfl

theorem runHrv_keys {s : Session} {d : String} {r : Row}
    (h : runHrv s d = .ok r) : r.map Prod.fst = fetcherKeys 4 := by
  unfold runHrv at h
  obtain ⟨data, hdata, h⟩ := exists_of_ebind_ok h
  unfold get_hrv at h
  obtain ⟨v1, h1, h⟩ := exists_of_ebind_ok h
  split at h
  · cases h
    rfl
  · obtain ⟨v2, h2, h⟩ := exists_of_ebind_ok h
    obtain ⟨v3, h3, h⟩ := exists_of_ebind_ok h
    obtain ⟨v4, h4, h⟩ := exists_of_ebind_ok h
    split at h
    · repeat obtain ⟨_, _, h⟩ := exists_of_ebind_ok h
      cases h
      rfl
    · cases h
      rfl

theorem runSpo2_keys {s : Session} {d : String} {r : Row}
    (h : runSpo2 s d = .ok r) : r.map Prod.fst = fetcherKeys 5 := by
  unfold runSpo2 at h
  obtain ⟨data, hdata, h⟩ := exists_of_ebind_ok h
  unfold get_spo2 at h
  repeat obtain ⟨_, _, h⟩ := exists_of_ebind_ok h
  cases h
  rfl

theorem runBreathingRate_keys {s : Session} {d : String} {r : Row}
    (h : runBreathingRate s d = .ok r) : r.map Prod.fst = fetcherKeys 6 := by
  unfold runBreathingRate at h
  obtain ⟨data, hdata, h⟩ := exists_of_ebind_ok h
  unfold get_breathing_rate at h
  obtain ⟨v1, h1, h⟩ := exists_of_ebind_ok h
  split at h
  · cases h
    rfl
  · obtain ⟨v2, h2, h⟩ := exists_of_ebind_ok h
    obtain ⟨v3, h3, h⟩ := exists_of_ebind_ok h
    obtain ⟨v4, h4, h⟩ := exists_of_ebind_ok h
    split at h
    · repeat obtain ⟨_, _, h⟩ := exists_of_ebind_ok h
      cases h
      rfl
    · cases h
      rfl

theorem runSkinTemp_keys {s : Session} {d : String} {r : Row}
    (h : runSkinTemp s d = .ok r) : r.map Prod.fst = fetcherKeys 7 := by
  unfold runSkinTemp at h
  obtain ⟨data, hdata, h⟩ := exists_of_ebind_ok h
  unfold get_skin_temp at h
  obtain ⟨v1, h1, h⟩ := exists_of_ebind_ok h
  split at h
  · cases h
    rfl
  · repeat obtain ⟨_, _, h⟩ := exists_of_ebind_ok h
    cases h
    rfl

theorem runVo2Max_keys {s : Session} {d : String} {r : Row}
    (h : runVo2Max s d = .ok r) : r.map Prod.fst = fetcherKeys 8 := by
  unfold runVo2Max at h
  obtain ⟨data, hdata, h⟩ := exists_of_ebind_ok h
  unfold get_vo2_max at h
  obtain ⟨v1, h1, h⟩ := exists_of_ebind_ok h
  split at h
  · cases h
    rfl
  · obtain ⟨v2, h2, h⟩ := exists_of_ebind_ok h
    obtain ⟨v3, h3, h⟩ := exists_of_ebind_ok h
    obtain ⟨v4, h4, h⟩ := exists_of_ebind_ok h
    split at h
    all_goals
      cases h
      rfl

theorem runExercises_keys {s : Session} {d : String} {r : Row}
    (h : runExercises s d = .ok r) : r.map Prod.fst = fetcherKeys 9 := by
  unfold runExercises at h
  obtain ⟨data, hdata, h⟩ := exists_of_ebind_ok h
  unfold get_exercises at h
  obtain ⟨v1, h1, h⟩ := exists_of_ebind_ok h
  split at h
  · cases h
    rfl
  · repeat obtain ⟨_, _, h⟩ := exists_of_ebind_ok h
    cases h
    rfl

/-- One step of the `fetch_all` loop: update on success, skip on failure. -/
def mergeStep (row : Row) (e : Except String Row) : Row :=
  match e with
  | .ok m => rowUpdate row m
  | .error _ => row

theorem hasKey_mergeStep (row : Row) (e : Except String Row) (k : String) :
    hasKey (mergeStep row e) k
      = (hasKey row k || (match e with | .ok m => hasKey m k | .error _ => false)) := by
  cases e with
  | ok m => simp [mergeStep, hasKey_rowUpdate]
  | error err => simp [mergeStep]

theorem hasKey_mergeFold (l : List (Except String Row)) (init : Row) (k : String) :
    hasKey (l.foldl mergeStep init) k
      = (hasKey init k
          || l.any (fun e => match e with | .ok m => hasKey m k | .error _ => false)) := by
  induction l generalizing init with
  | nil => simp
  | cons e rest ih =>
    rw [List.foldl_cons, ih, hasKey_mergeStep]
    simp [Bool.or_assoc]

theorem fetch_all_eq_mergeFold (d : String) (s : Session) :
    fetch_all d s = (fetchers.map fun fn => fn s d).foldl mergeStep [] := by
  rw [List.foldl_map]
  rfl

theorem runFetcher_zero : runFetcher 0 = runActivitySummary := rfl
theorem runFetcher_one : runFetcher 1 = runAzm := rfl
theorem runFetcher_two : runFetcher 2 = runSleep := rfl
theorem runFetcher_three : runFetcher 3 = runHeartRate := rfl
theorem runFetcher_four : runFetcher 4 = runHrv := rfl
theorem runFetcher_five : runFetcher 5 = runSpo2 := rfl
theorem runFetcher_six : runFetcher 6 = runBreathingRate := rfl
theorem runFetcher_seven : runFetcher 7 = runSkinTemp := rfl
theorem runFetcher_eight : runFetcher 8 = runVo2Max := rfl
theorem runFetcher_nine : runFetcher 9 = runExercises := rfl

theorem finRange_ten :
    List.finRange 10 = [0, 1, 2, 3, 4, 5, 6, 7, 8, 9] := by decide

theorem hasKey_fetch_all (d : String) (s : Session) (k : String) :
    hasKey (fetch_all d s) k
      = (List.finRange 10).any
          (fun j => match runFetcher j s d with
            | .ok m => hasKey m k
            | .error _ => false) := by
  rw [fetch_all_eq_mergeFold, hasKey_mergeFold, finRange_ten]
  simp only [fetchers, List.map_cons, List.map_nil, List.any_cons, List.any_nil,
    runFetcher_zero, runFetcher_one, runFetcher_two, runFetcher_three, runFetcher_four,
    runFetcher_five, runFetcher_six, runFetcher_seven, runFetcher_eight, runFetcher_nine]
  simp [hasKey, jLookup]

/-- Keys of a successful fetcher's row are its statically fixed key set. -/
theorem runFetcher_keys {s : Session} {d : String} (j : Fin 10) {r : Row}
    (h : runFetcher j s d = .ok r) : r.map Prod.fst = fetcherKeys j := by
  fin_cases j
  · exact @runActivitySummary_keys s d r h
  · exact @runAzm_keys s d r h
  · exact @runSleep_keys s d r h
  · exact @runHeartRate_keys s d r h
  · exact @runHrv_keys s d r h
  · exact @runSpo2_keys s d r h
  · exact @runBreathingRate_keys s d r h
  · exact @runSkinTemp_keys s d r h
  · exact @runVo2Max_keys s d r h
  · exact @runExercises_keys s d r h

/-- The ten fetchers' key sets are pairwise disjoint. -/
theorem fetcherKeys_disjoint :
    ∀ i j : Fin 10, i ≠ j → ∀ k ∈ fetcherKeys i, k ∉ fetcherKeys j := by
  decide

/-- C2: for every date and every single fetcher `i`, if fetcher `i` raises
while all other fetchers succeed, the aggregate fetch still returns, and the
returned row contains every key produced by each of the other nine
fetchers; only fetcher `i`'s keys are absent. -/
theorem fetch_all_partial_failure_isolation (d : String) (s : Session) (i : Fin 10)
    (hfail : ∃ e, runFetcher i s d = .error e)
    (hok : ∀ j : Fin 10, j ≠ i → ∃ r, runFetcher j s d = .ok r) :
    (∀ j : Fin 10, j ≠ i → ∀ k ∈ fetcherKeys j, hasKey (fetch_all d s) k = true) ∧
    (∀ k ∈ fetcherKeys i, hasKey (fetch_all d s) k = false) := by
  constructor
  · intro j hj k hk
    rw [hasKey_fetch_all, List.any_eq_true]
    refine ⟨j, List.mem_finRange j, ?_⟩
    obtain ⟨r, hr⟩ := hok j hj
    rw [hr]
    rw [hasKey_iff_mem_keys, runFetcher_keys j hr]
    exact hk
  · intro k hk
    rw [hasKey_fetch_all, List.any_eq_false]
    intro j _
    by_cases hji : j = i
    · subst hji
      obtain ⟨e, he⟩ := hfail
      rw [he]
      simp
    · obtain ⟨r, hr⟩ := hok j hji
      rw [hr]
      simp only [Bool.not_eq_true]
      rw [← Bool.not_eq_true, hasKey_iff_mem_keys, runFetcher_keys j hr]
      exact fetcherKeys_disjoint i j (fun hh => hji hh.symm) k hk

/-- Witness for C2: a session whose sleep endpoint raises while every other
endpoint returns `{}`; the other fetchers' keys (e.g. `rhr`) are present and
the sleep fetcher's keys (e.g. `sleep_duration_hrs`) are absent. -/
theorem fetch_all_partial_failure_isolation_witness :
    hasKey (fetch_all "2024-01-01"
        ⟨.ok (jobj []), .ok (jobj []), .error "boom", .ok (jobj []), .ok (jobj []),
         .ok (jobj []), .ok (jobj []), .ok (jobj []), .ok (jobj []), .ok (jobj [])⟩)
      "rhr" = true ∧
    hasKey (fetch_all "2024-01-01"
        ⟨.ok (jobj []), .ok (jobj []), .error "boom", .ok (jobj []), .ok (jobj []),
         .ok (jobj []), .ok (jobj []), .ok (jobj []), .ok (jobj []), .ok (jobj [])⟩)
      "sleep_duration_hrs" = false := by
  have h := fetch_all_partial_failure_isolation "2024-01-01"
      ⟨.ok (jobj []), .ok (jobj []), .error "boom", .ok (jobj []), .ok (jobj []),
       .ok (jobj []), .ok (jobj []), .ok (jobj []), .ok (jobj []), .ok (jobj [])⟩
      2 ⟨"boom", rfl⟩ ?_
  · exact ⟨h.1 3 (by decide) "rhr" (by decide), h.2 "sleep_duration_hrs" (by decide)⟩
  · intro j hj
    fin_cases j
    · exact ⟨_, rfl⟩
    · exact ⟨_, rfl⟩
    · exact absurd rfl hj
    · exact ⟨_, rfl⟩
    · exact ⟨_, rfl⟩
    · exact ⟨_, rfl⟩
    · exact ⟨_, rfl⟩
    · exact ⟨_, rfl⟩
    · exact ⟨_, rfl⟩
    · exact ⟨_, rfl⟩

/-! ## C6: blood-pressure CLI parsing -/

theorem splitOnCharAux_length_no_sep (c : Char) (l cur : List Char) (h : c ∉ l) :
    (splitOnCharAux c l cur).length = 1 := by
  induction l generalizing cur with
  | nil => rfl
  | cons x rest ih =>
    have hx : ¬ (x = c) := fun hh => h (by simp [hh])
    simp only [splitOnCharAux, if_neg hx]
    exact ih _ (fun hh => h (by simp [hh]))

theorem parseReading_no_slash (a : String) (h : '/' ∉ a.data) :
    parseReading a = .error 1 := by
  unfold parseReading pySplitSlash
  rw [if_pos]
  rw [splitOnCharAux_length_no_sep '/' a.data [] h]
  omega

theorem parseReading_error_code {a : String} {c : ℕ} (h : parseReading a = .error c) :
    c = 1 := by
  unfold parseReading at h
  by_cases hl : (pySplitSlash a).length < 2
  · rw [if_pos hl] at h
    cases h
    rfl
  · rw [if_neg hl] at h
    repeat' split at h
    all_goals first | (cases h; rfl) | cases h

theorem parseReadings_ok_all {args : List String} {rs : List Row}
    (h : parseReadings args = .ok rs) : ∀ a ∈ args, ∃ r, parseReading a = .ok r := by
  induction args generalizing rs with
  | nil => intro a ha; cases ha
  | cons raw rest ih =>
    simp only [parseReadings] at h
    obtain ⟨r, hr, h⟩ := exists_of_ebind_ok h
    obtain ⟨rs', hrs', h⟩ := exists_of_ebind_ok h
    intro a ha
    rcases List.mem_cons.mp ha with ha | ha
    · subst ha
      exact ⟨r, hr⟩
    · exact ih hrs' a ha

theorem parseReadings_error_code {args : List String} {c : ℕ}
    (h : parseReadings args = .error c) : c = 1 := by
  induction args with
  | nil => cases h
  | cons raw rest ih =>
    simp only [parseReadings] at h
    rcases hr : parseReading raw with c' | r
    · rw [hr, ebind_error] at h
      cases h
      exact parseReading_error_code hr
    · rw [hr, ebind_ok] at h
      rcases hrs : parseReadings rest with c'' | rs
      · rw [hrs, ebind_error] at h
        cases h
        exact ih hrs
      · rw [hrs, ebind_ok] at h
        cases h

/-- C6: the blood-pressure CLI argument `"120/80/65"` parses to
systolic=120, diastolic=80, pulse=65; `"120/80"` parses with pulse `""`;
and for every argument list containing an argument with no slash, the
process exits with a non-zero code and no sheet write is attempted, even if
other arguments in the same call are well-formed. -/
theorem cmd_bp_parse_claim :
    cmd_bp ["120/80/65"] = .ok [[("systolic", jnum 120), ("diastolic", jnum 80),
      ("pulse", jnum 65), ("notes", jstr "")]] ∧
    cmd_bp ["120/80"] = .ok [[("systolic", jnum 120), ("diastolic", jnum 80),
      ("pulse", jstr ""), ("notes", jstr "")]] ∧
    (∀ args : List String, (∃ a ∈ args, '/' ∉ a.data) →
      (∀ rs, cmd_bp args ≠ .ok rs) ∧ ∃ c, cmd_bp args = .error c ∧ c ≠ 0) := by
  refine ⟨by decide, by decide, fun args ⟨a, hmem, hns⟩ => ⟨fun rs hok => ?_, ?_⟩⟩
  · obtain ⟨r, hr⟩ := parseReadings_ok_all hok a hmem
    rw [parseReading_no_slash a hns] at hr
    cases hr
  · rcases hcase : cmd_bp args with c | rs
    · refine ⟨c, rfl, ?_⟩
      rw [parseReadings_error_code hcase]
      decide
    · obtain ⟨r, hr⟩ := parseReadings_ok_all hcase a hmem
      rw [parseReading_no_slash a hns] at hr
      cases hr

/-- Witness for C6 at the argument list `["120"]`. -/
theorem cmd_bp_parse_claim_witness :
    (∀ rs, cmd_bp ["120"] ≠ .ok rs) ∧ ∃ c, cmd_bp ["120"] = .error c ∧ c ≠ 0 :=
  cmd_bp_parse_claim.2.2 ["120"] ⟨"120", by decide, by decide⟩

/-! ## C7: invalid API key -/

/-- C7 counterexample: for the request `GET /fetch?key=caf\u00e9` against the
configured key `"secret"`, the key differs from the configured key — so the
claim as stated requires a 403 response — but `hmac.compare_digest` raises
`TypeError` on the non-ASCII `str`, nothing catches it, and no response is
written at all (no fetch and no write happen either). -/
theorem do_GET_nonascii_key_counterexample :
    do_GET "secret" "2024-01-01" "/fetch" [("key", ["caf\u00e9"])]
        (.ok []) (fun _ => .ok ())
      = ⟨.error "TypeError: comparing strings with non-ASCII characters is not supported",
         false, false⟩ ∧
    ("caf\u00e9" : String) ≠ "secret" ∧
    ∀ resp, (do_GET "secret" "2024-01-01" "/fetch" [("key", ["caf\u00e9"])]
        (.ok []) (fun _ => .ok ())).sent ≠ .ok resp := by
  refine ⟨by decide, by decide, fun resp h => ?_⟩
  rw [show (do_GET "secret" "2024-01-01" "/fetch" [("key", ["caf\u00e9"])]
      (.ok []) (fun _ => .ok ())).sent
    = .error "TypeError: comparing strings with non-ASCII characters is not supported"
    from by decide] at h
  cases h

/-- C7 (amended): for every GET request to `/fetch` whose `key` parameter
is missing or differs from the configured API key, no metric fetch and no
sheet write is ever performed; a 403 response is written when the key is
missing, or when the differing key and the configured key are both
all-ASCII strings (so `hmac.compare_digest` returns); for a non-empty key
where either string contains a non-ASCII character, `compare_digest` raises
`TypeError`, the handler crashes, and no response is written at all. -/
theorem do_GET_invalid_key_amended (apiKey today : String)
    (query : List (String × List String))
    (fetchO : Except String Row) (writeO : Row → Except String Unit) :
    (getParam query "key" = none →
      do_GET apiKey today "/fetch" query fetchO writeO
        = ⟨.ok ⟨403, "Forbidden: invalid or missing API key."⟩, false, false⟩) ∧
    (∀ k, getParam query "key" = some k → k ≠ apiKey →
      isAsciiStr k = true → isAsciiStr apiKey = true →
      do_GET apiKey today "/fetch" query fetchO writeO
        = ⟨.ok ⟨403, "Forbidden: invalid or missing API key."⟩, false, false⟩) ∧
    (∀ k, getParam query "key" = some k → k ≠ "" →
      (isAsciiStr k = false ∨ isAsciiStr apiKey = false) →
      ∃ e, do_GET apiKey today "/fetch" query fetchO writeO = ⟨.error e, false, false⟩) ∧
    ((getParam query "key" = none ∨ ∃ k, getParam query "key" = some k ∧ k ≠ apiKey) →
      (do_GET apiKey today "/fetch" query fetchO writeO).fetchCalled = false ∧
      (do_GET apiKey today "/fetch" query fetchO writeO).writeCalled = false) := by
  refine ⟨fun h => ?_, fun k hk hne ha hb => ?_, fun k hk hne hna => ?_, fun h => ?_⟩
  · simp [do_GET, h]
  · by_cases hke : k = ""
    · simp [do_GET, hk, hke]
    · have hc : compareDigest k apiKey = .ok false := by
        simp [compareDigest, ha, hb, hne]
      simp [do_GET, hk, hke, hc]
  · have hc : compareDigest k apiKey
        = .error "TypeError: comparing strings with non-ASCII characters is not supported" := by
      rcases hna with hna | hna <;> simp [compareDigest, hna]
    exact ⟨"TypeError: comparing strings with non-ASCII characters is not supported",
      by simp [do_GET, hk, hne, hc]⟩
  · rcases h with h | ⟨k, hk, hne⟩
    · simp [do_GET, h]
    · by_cases hke : k = ""
      · simp [do_GET, hk, hke]
      · rcases hc : compareDigest k apiKey with e | eq
        · simp [do_GET, hk, hke, hc]
        · have heq : eq = false := by
            unfold compareDigest at hc
            split at hc
            · cases hc
              simp [hne]
            · cases hc
          subst heq
          simp [do_GET, hk, hke, hc]

/-- Witness for C7 (amended): configured key `"secret"`; a request with key
`"wrong"` gets the 403 response, and a request with the non-ASCII key
`"caf\u00e9"` makes the handler raise. -/
theorem do_GET_invalid_key_amended_witness :
    do_GET "secret" "2024-01-01" "/fetch" [("key", ["wrong"])]
        (.ok []) (fun _ => .ok ())
      = ⟨.ok ⟨403, "Forbidden: invalid or missing API key."⟩, false, false⟩ ∧
    ∃ e, do_GET "secret" "2024-01-01" "/fetch" [("key", ["caf\u00e9"])]
        (.ok []) (fun _ => .ok ())
      = ⟨.error e, false, false⟩ := by
  constructor
  · exact (do_GET_invalid_key_amended "secret" "2024-01-01" [("key", ["wrong"])]
      (.ok []) (fun _ => .ok ())).2.1 "wrong" (by decide) (by decide) (by decide) (by decide)
  · exact (do_GET_invalid_key_amended "secret" "2024-01-01" [("key", ["caf\u00e9"])]
      (.ok []) (fun _ => .ok ())).2.2.1 "caf\u00e9" (by decide) (by decide)
      (Or.inl (by decide))

/-! ## C8 and C9: sheet-writer append loops -/

theorem appendLoop_all_ok (rows : List (List JVal)) :
    ∀ k, appendLoop (fun _ => true) k rows = ⟨rows, rows.length, .ok ()⟩ := by
  induction rows with
  | nil => intro k; rfl
  | cons r rest ih =>
    intro k
    simp [appendLoop, ih (k + 1)]

/-- C8: for every non-empty list of N blood-pressure readings written in one
call (with every append succeeding), exactly N row-append operations are
performed, and the committed rows are exactly one `bpRow` per reading,
each carrying the identical timestamp and the reading's 1-based index. -/
theorem append_bp_rows_claim (ts : String) (readings : List Row) (hne : readings ≠ []) :
    (append_bp ts readings (fun _ => true)).committed
      = (readings.enum.map fun p => bpRow ts (p.1 + 1) p.2) ∧
    (append_bp ts readings (fun _ => true)).attempts = readings.length ∧
    (append_bp ts readings (fun _ => true)).outcome = .ok () := by
  unfold append_bp
  rw [appendLoop_all_ok _ 0]
  refine ⟨rfl, ?_, rfl⟩
  simp [List.enum_length]

/-- Witness for C8 at two concrete readings. -/
theorem append_bp_rows_claim_witness :
    (append_bp "2024-01-01 08:00:00"
        [[("systolic", jnum 120), ("diastolic", jnum 80), ("pulse", jnum 65), ("notes", jstr "")],
         [("systolic", jnum 118), ("diastolic", jnum 78), ("pulse", jstr ""), ("notes", jstr "")]]
        (fun _ => true)).committed
      = ([[("systolic", jnum 120), ("diastolic", jnum 80), ("pulse", jnum 65), ("notes", jstr "")],
          [("systolic", jnum 118), ("diastolic", jnum 78), ("pulse", jstr ""), ("notes", jstr "")]].enum.map
          fun p => bpRow "2024-01-01 08:00:00" (p.1 + 1) p.2) ∧
    (append_bp "2024-01-01 08:00:00"
        [[("systolic", jnum 120), ("diastolic", jnum 80), ("pulse", jnum 65), ("notes", jstr "")],
         [("systolic", jnum 118), ("diastolic", jnum 78), ("pulse", jstr ""), ("notes", jstr "")]]
        (fun _ => true)).attempts = 2 ∧
    (append_bp "2024-01-01 08:00:00"
        [[("systolic", jnum 120), ("diastolic", jnum 80), ("pulse", jnum 65), ("notes", jstr "")],
         [("systolic", jnum 118), ("diastolic", jnum 78), ("pulse", jstr ""), ("notes", jstr "")]]
        (fun _ => true)).outcome = .ok () :=
  append_bp_rows_claim "2024-01-01 08:00:00"
    [[("systolic", jnum 120), ("diastolic", jnum 80), ("pulse", jnum 65), ("notes", jstr "")],
     [("systolic", jnum 118), ("diastolic", jnum 78), ("pulse", jstr ""), ("notes", jstr "")]]
    (by decide)

theorem appendLoop_first_failure (appendOk : ℕ → Bool) :
    ∀ (rows : List (List JVal)) (base k : ℕ), k < rows.length →
      (∀ j, j < k → appendOk (base + j) = true) → appendOk (base + k) = false →
      appendLoop appendOk base rows = ⟨rows.take k, k + 1, .error "APIError"⟩ := by
  intro rows
  induction rows with
  | nil =>
    intro base k hk _ _
    cases hk
  | cons r rest ih =>
    intro base k hk hok hfail
    cases k with
    | zero =>
      have h0 : appendOk base = false := by simpa using hfail
      simp [appendLoop, h0]
    | succ k' =>
      have h0 : appendOk base = true := by simpa using hok 0 (Nat.succ_pos k')
      have hrec := ih (base + 1) k' (by simpa using hk)
        (fun j hj => by
          have := hok (j + 1) (by omega)
          simpa [Nat.add_assoc, Nat.add_comm 1 j] using this)
        (by
          have := hfail
          simpa [Nat.add_assoc, Nat.add_comm 1 k'] using this)
      simp [appendLoop, h0, hrec]

/-- C9: for every multi-row write call (blood pressure or diet), if the
(k+1)-th row-append operation fails, the first k rows remain committed, the
remaining rows are never attempted (exactly k+1 append calls are made, so
no retry occurs), and the error propagates to the caller. -/
theorem write_partial_failure_claim (ts meal : String) (appendOk : ℕ → Bool) (k : ℕ)
    (hok : ∀ j, j < k → appendOk j = true) (hfail : appendOk k = false) :
    (∀ readings : List Row, k < readings.length →
      (append_bp ts readings appendOk).committed
        = ((readings.enum.map fun p => bpRow ts (p.1 + 1) p.2).take k) ∧
      (append_bp ts readings appendOk).attempts = k + 1 ∧
      (append_bp ts readings appendOk).outcome = .error "APIError") ∧
    (∀ items : List Row, k < items.length →
      (append_diet ts meal items appendOk).committed
        = ((items.map (dietRow ts meal)).take k) ∧
      (append_diet ts meal items appendOk).attempts = k + 1 ∧
      (append_diet ts meal items appendOk).outcome = .error "APIError") := by
  constructor
  · intro readings hk
    unfold append_bp
    rw [appendLoop_first_failure appendOk _ 0 k
      (by simpa [List.enum_length] using hk)
      (fun j hj => by simpa using hok j hj)
      (by simpa using hfail)]
    exact ⟨rfl, rfl, rfl⟩
  · intro items hk
    unfold append_diet
    rw [appendLoop_first_failure appendOk _ 0 k
      (by simpa using hk)
      (fun j hj => by simpa using hok j hj)
      (by simpa using hfail)]
    exact ⟨rfl, rfl, rfl⟩

/-- Witness for C9: two rows, the first append succeeds and the second
fails (`appendOk n = (n == 0)`, failing index k = 1). -/
theorem write_partial_failure_claim_witness :
    (append_bp "ts" [[("systolic", jnum 120)], [("systolic", jnum 118)]]
        (fun n => n == 0)).committed
      = (([[("systolic", jnum 120)], [("systolic", jnum 118)]].enum.map
          fun p => bpRow "ts" (p.1 + 1) p.2).take 1) ∧
    (append_bp "ts" [[("systolic", jnum 120)], [("systolic", jnum 118)]]
        (fun n => n == 0)).attempts = 2 ∧
    (append_bp "ts" [[("systolic", jnum 120)], [("systolic", jnum 118)]]
        (fun n => n == 0)).outcome = .error "APIError" :=
  (write_partial_failure_claim "ts" "lunch" (fun n => n == 0) 1
    (fun j hj => by
      interval_cases j
      decide)
    (by decide)).1
    [[("systolic", jnum 120)], [("systolic", jnum 118)]] (by decide)
